import Mathlib

/-!
Verification development for the offline-first inventory system
(service worker + App state handlers, IndexedDB wrapper `utils/db.ts`,
sync hook `hooks/useOfflineSync.ts`, and the Dashboard / StockActionModal
UI entry points).

The embedding is a shallow, sequential model of the TypeScript source:
React state updates become pure state transformers on an `AppState`
record, the IndexedDB sync queue becomes a list with a monotonic id
counter, and `Date.now()` / `Math.random()` are passed in as explicit
parameters (`nowMs`, `rand`, `nowStr`).  Notifications are an
append-only audit list that no verified operation reads back, so the
`notifications` collection is omitted from the state record.
JavaScript numbers for quantities are modelled as `Int` (they can go
negative), and monetary amounts as `Int` as well since no verified
property computes with them.
-/

set_option maxRecDepth 10000

namespace InventorySys

/-- Status enum of an item, from `types.ts` usage in the components. -/
inductive ItemStatus where
  | RAW
  | FINISHED
  | GOOD_AS_NEW
  | OLD_USED
deriving DecidableEq

/-- Transaction type, string literals STOCK_IN / STOCK_OUT / TRANSFER in the source. -/
inductive TxType where
  | STOCK_IN
  | STOCK_OUT
  | TRANSFER
deriving DecidableEq

/-- Transaction status, string literals PENDING / APPROVED / REJECTED in the source. -/
inductive TxStatus where
  | PENDING
  | APPROVED
  | REJECTED
deriving DecidableEq

/-- Inventory item record (spec section 3, field usage throughout the components). -/
structure Item where
  id : String
  name : String
  warehouseId : String
  categoryId : String
  quantity : Int
  baseCost : Int
  freight : Int
  duties : Int
  taxes : Int
  trueUnitCost : Int
  status : ItemStatus
  barcode : String
  lastUpdated : String
deriving DecidableEq

/-- Warehouse record.  The source field holding the barcode prefix is called
"prefix"; that is a reserved word in Lean, so it is renamed `pfx` here. -/
structure Warehouse where
  id : String
  name : String
  pfx : String
deriving DecidableEq

/-- Category record. -/
structure Category where
  id : String
  name : String
  code : String
  parentId : Option String
deriving DecidableEq

/-- Transaction record created by the request handlers in App.tsx. -/
structure Transaction where
  id : String
  type : TxType
  itemId : String
  warehouseId : String
  targetWarehouseId : Option String
  quantity : Int
  status : TxStatus
  staffName : String
  timestamp : String
  rejectionReason : Option String
deriving DecidableEq

/-- Sync queue entry status, from `utils/db.ts` (`SyncAction.status`). -/
inductive SyncStatus where
  | PENDING
  | SYNCED
  | FAILED
deriving DecidableEq

/-- Payload of a `SyncAction`: the request handlers enqueue the full new
transaction, approval enqueues `\x7btxId\x7d`, rejection enqueues
`\x7btxId, reason\x7d` (App.tsx lines 333, 352, 373, 428, 440). -/
inductive SyncPayload where
  | tx (t : Transaction)
  | approveRef (txId : String)
  | rejectRef (txId : String) (reason : String)
deriving DecidableEq

/-- Sync queue entry, interface `SyncAction` of `utils/db.ts`.  The id is
assigned by the IndexedDB `autoIncrement` key generator. -/
structure SyncAction where
  id : Nat
  type : String
  payload : SyncPayload
  status : SyncStatus
  timestamp : String
  retries : Nat
deriving DecidableEq

/-- The `syncQueue` object store: entries held in ascending key order (which
is enqueue order, since the key generator is monotonic), together with the
next key the generator will assign. -/
structure SyncQueue where
  entries : List SyncAction
  nextId : Nat
deriving DecidableEq

/-- Function `enqueueSyncAction` of `utils/db.ts` (lines 154-160): `dbPut` on the
`syncQueue` store without an id lets `autoIncrement` assign the next key; the
record is stored with status PENDING and retries 0. -/
def enqueueSyncAction (ty : String) (payload : SyncPayload) (ts : String)
    (q : SyncQueue) : SyncQueue :=
  { entries := q.entries ++
      [{ id := q.nextId, type := ty, payload := payload,
         status := SyncStatus.PENDING, timestamp := ts, retries := 0 }],
    nextId := q.nextId + 1 }

/-- Function `getPendingSyncActions` of `utils/db.ts` (lines 162-165): `getAll`
returns records in ascending key order, then filter by status PENDING. -/
def getPendingSyncActions (q : SyncQueue) : List SyncAction :=
  q.entries.filter (fun a => a.status == SyncStatus.PENDING)

/-- Function `markSyncActionSynced` of `utils/db.ts` (lines 167-172): `dbGet` the
record; if absent do nothing; otherwise `dbPut` it back with status SYNCED
(an in-place replace, since the key already exists). -/
def markSyncActionSynced (id : Nat) (q : SyncQueue) : SyncQueue :=
  match q.entries.find? (fun a => a.id == id) with
  | none => q
  | some a =>
      { q with entries := q.entries.map (fun e =>
          if e.id == id then { a with status := SyncStatus.SYNCED } else e) }

/-- Function `markSyncActionFailed` of `utils/db.ts` (lines 174-183): like
`markSyncActionSynced` but the status becomes FAILED and the stored retries
counter is incremented. -/
def markSyncActionFailed (id : Nat) (q : SyncQueue) : SyncQueue :=
  match q.entries.find? (fun a => a.id == id) with
  | none => q
  | some a =>
      { q with entries := q.entries.map (fun e =>
          if e.id == id then
            { a with status := SyncStatus.FAILED, retries := a.retries + 1 }
          else e) }

/-- Function `syncNow` of `hooks/useOfflineSync.ts` (lines 29-50).  The replay
callback is modelled by its outcome `ok : Bool` (resolve or throw).  Returns
the queue after reconciliation, the final `pendingCount` React state, and the
batch handed to the callback (`[]` when the callback was not invoked).  The
code sets `pendingCount` to the drained length up front, resets it to 0 only
on success, and marks every action of the batch SYNCED on success or FAILED
on failure. -/
def syncNow (ok : Bool) (q : SyncQueue) : SyncQueue × Nat × List SyncAction :=
  let pending := getPendingSyncActions q
  if pending.isEmpty then (q, pending.length, [])
  else if ok then
    (pending.foldl (fun acc a => markSyncActionSynced a.id acc) q, 0, pending)
  else
    (pending.foldl (fun acc a => markSyncActionFailed a.id acc) q,
     pending.length, pending)

/-- The React state slices owned by App.tsx that the verified operations touch
(`warehouses`, `items`, `categories`, `transactions`).  The `notifications`
slice is append-only audit data never read back by any handler, so it is not
modelled. -/
structure AppState where
  items : List Item
  warehouses : List Warehouse
  categories : List Category
  transactions : List Transaction
deriving DecidableEq

/-- Handler `handleStockInRequest` of App.tsx (lines 318-337): build a PENDING
STOCK_IN transaction with id `TX-` + `Date.now()`, append it to the
transactions state and enqueue a STOCK_IN sync action whose payload is the new
transaction.  `Date.now()` is the parameter `nowMs` and the ISO timestamp
string is `nowStr`. -/
def handleStockInRequest (nowMs : Nat) (nowStr : String) (item : Item) (qty : Int)
    (s : AppState) (q : SyncQueue) : AppState × SyncQueue :=
  let newTx : Transaction :=
    { id := "TX-" ++ toString nowMs, type := TxType.STOCK_IN, itemId := item.id,
      warehouseId := item.warehouseId, targetWarehouseId := none, quantity := qty,
      status := TxStatus.PENDING, staffName := "John Staff", timestamp := nowStr,
      rejectionReason := none }
  ({ s with transactions := s.transactions ++ [newTx] },
   enqueueSyncAction "STOCK_IN" (SyncPayload.tx newTx) nowStr q)

/-- Handler `handleStockOutRequest` of App.tsx (lines 339-356), same shape as
stock-in but with type STOCK_OUT. -/
def handleStockOutRequest (nowMs : Nat) (nowStr : String) (item : Item) (qty : Int)
    (s : AppState) (q : SyncQueue) : AppState × SyncQueue :=
  let newTx : Transaction :=
    { id := "TX-" ++ toString nowMs, type := TxType.STOCK_OUT, itemId := item.id,
      warehouseId := item.warehouseId, targetWarehouseId := none, quantity := qty,
      status := TxStatus.PENDING, staffName := "John Staff", timestamp := nowStr,
      rejectionReason := none }
  ({ s with transactions := s.transactions ++ [newTx] },
   enqueueSyncAction "STOCK_OUT" (SyncPayload.tx newTx) nowStr q)

/-- Handler `handleTransferRequest` of App.tsx (lines 358-377): id `TR-` +
`Date.now()`, type TRANSFER, carries the target warehouse id. -/
def handleTransferRequest (nowMs : Nat) (nowStr : String) (item : Item)
    (targetWhId : String) (qty : Int) (s : AppState) (q : SyncQueue) :
    AppState × SyncQueue :=
  let newTx : Transaction :=
    { id := "TR-" ++ toString nowMs, type := TxType.TRANSFER, itemId := item.id,
      warehouseId := item.warehouseId, targetWarehouseId := some targetWhId,
      quantity := qty, status := TxStatus.PENDING, staffName := "John Staff",
      timestamp := nowStr, rejectionReason := none }
  ({ s with transactions := s.transactions ++ [newTx] },
   enqueueSyncAction "TRANSFER" (SyncPayload.tx newTx) nowStr q)

/-- Freshly generated item id of the TRANSFER create branch, App.tsx line 411:
`it-` + `Date.now()` + `-` + a random number below 1000. -/
def mkNewItemId (nowMs rand : Nat) : String :=
  "it-" ++ toString nowMs ++ "-" ++ toString rand

/-- The `setItems` updater run by `handleApproveTransaction` (App.tsx lines
387-425): decrement the source item, then, for a TRANSFER with a target
warehouse, either merge into an existing matching item of the target warehouse
or append a clone of the source with a fresh id and barcode.  The barcode
suffix in the source is index 1 of newId split on the dash, which for an id of the shape
`it-<nowMs>-<rand>` is the decimal string of `nowMs` (decimal digits contain
no dash), so it is written `toString nowMs` directly.  The fallbacks `WH` and
`GEN` are the JavaScript falsy-fallback defaults for a missing target warehouse
or category. -/
def applyApproveItems (nowMs rand : Nat) (nowStr : String) (warehouses : List Warehouse)
    (categories : List Category) (tx : Transaction) (sourceItem : Item)
    (currItems : List Item) : List Item :=
  let updated := currItems.map (fun i =>
    if i.id == tx.itemId then
      { i with quantity := i.quantity - tx.quantity, lastUpdated := nowStr }
    else i)
  if tx.type = TxType.TRANSFER then
    match tx.targetWarehouseId with
    | none => updated
    | some target =>
        let targetWarehouse := warehouses.find? (fun w => w.id == target)
        let targetCategory := categories.find? (fun c => c.id == sourceItem.categoryId)
        match updated.find? (fun i =>
            i.warehouseId == target && i.categoryId == sourceItem.categoryId &&
            i.name == sourceItem.name) with
        | some existingInTarget =>
            updated.map (fun i =>
              if i.id == existingInTarget.id then
                { i with quantity := i.quantity + tx.quantity, lastUpdated := nowStr }
              else i)
        | none =>
            let newId := mkNewItemId nowMs rand
            let wpfx := match targetWarehouse with | some w => w.pfx | none => "WH"
            let ccode := match targetCategory with | some c => c.code | none => "GEN"
            updated ++
              [{ sourceItem with
                  id := newId,
                  warehouseId := target,
                  quantity := tx.quantity,
                  barcode := wpfx ++ "-" ++ ccode ++ "-" ++ toString nowMs,
                  lastUpdated := nowStr }]
  else updated

/-- One step of the `prev.map` loop of `handleApproveTransaction` (App.tsx lines
380-431), threading the transactions built so far, the items state, and the
sync queue.  A transaction whose id differs from `txId` passes through
unchanged.  For a matching transaction the source item is looked up in the
captured `items` state `s.items`; if it is missing the transaction is returned
unchanged (no item mutation, no enqueue), otherwise the `setItems` updater is
applied, an APPROVE action is enqueued, and the transaction is returned with
status APPROVED.  Note that the source checks neither the transaction status
nor stock availability. -/
def approveStep (nowMs rand : Nat) (nowStr : String) (txId : String) (s : AppState)
    (acc : List Transaction × List Item × SyncQueue) (tx : Transaction) :
    List Transaction × List Item × SyncQueue :=
  if tx.id == txId then
    match s.items.find? (fun i => i.id == tx.itemId) with
    | none => (acc.1 ++ [tx], acc.2.1, acc.2.2)
    | some sourceItem =>
        (acc.1 ++ [{ tx with status := TxStatus.APPROVED }],
         applyApproveItems nowMs rand nowStr s.warehouses s.categories tx sourceItem acc.2.1,
         enqueueSyncAction "APPROVE" (SyncPayload.approveRef txId) nowStr acc.2.2)
  else (acc.1 ++ [tx], acc.2.1, acc.2.2)

/-- Handler `handleApproveTransaction` of App.tsx (lines 379-432), as a pure
state transformer: fold the per-transaction step over the transactions list
(the `setItems` updaters queued inside the map run in that same order against
the latest items state, which the fold models by threading the items). -/
def handleApproveTransaction (nowMs rand : Nat) (nowStr : String) (txId : String)
    (s : AppState) (q : SyncQueue) : AppState × SyncQueue :=
  let r := s.transactions.foldl (approveStep nowMs rand nowStr txId s) ([], s.items, q)
  ({ s with transactions := r.1, items := r.2.1 }, r.2.2)

/-- One step of the `prev.map` loop of `handleRejectTransaction` (App.tsx lines
434-444): a matching transaction is returned with status REJECTED and the
given rejection reason, and a REJECT action carrying txId and reason is
enqueued; item quantities are never touched.  The handler itself does not
check that the reason is non-empty. -/
def rejectStep (nowStr : String) (txId reason : String)
    (acc : List Transaction × SyncQueue) (tx : Transaction) :
    List Transaction × SyncQueue :=
  if tx.id == txId then
    (acc.1 ++ [{ tx with status := TxStatus.REJECTED, rejectionReason := some reason }],
     enqueueSyncAction "REJECT" (SyncPayload.rejectRef txId reason) nowStr acc.2)
  else (acc.1 ++ [tx], acc.2)

/-- Handler `handleRejectTransaction` of App.tsx (lines 434-444) as a pure state
transformer. -/
def handleRejectTransaction (nowStr : String) (txId reason : String)
    (s : AppState) (q : SyncQueue) : AppState × SyncQueue :=
  let r := s.transactions.foldl (rejectStep nowStr txId reason) ([], q)
  ({ s with transactions := r.1 }, r.2)

/-- Function `handleFinalReject` of the Dashboard component (part_005 lines
35-43) composed with the `onReject` wiring: the final reason (the selected
preset, or the custom text when the preset is the custom option) is already
computed; `if (!finalReason) return` refuses an empty reason before any state
change, otherwise `handleRejectTransaction` runs. -/
def handleFinalReject (nowStr : String) (txId finalReason : String)
    (s : AppState) (q : SyncQueue) : AppState × SyncQueue :=
  if finalReason == "" then (s, q)
  else handleRejectTransaction nowStr txId finalReason s q

/-- Function `validateAndConfirm` of StockActionModal (part_002 lines 38-49)
composed with the `onConfirm` wiring of App.tsx: reject a non-positive
quantity, reject an outbound quantity exceeding the current stock, otherwise
run the stock-in or stock-out request handler.  The modal parses the raw
input with `parseInt`, so `qty` is always an integer; a non-numeric input
collapses to 0 and is caught by the first check. -/
def validateAndConfirm (isInbound : Bool) (nowMs : Nat) (nowStr : String)
    (item : Item) (qty : Int) (s : AppState) (q : SyncQueue) : AppState × SyncQueue :=
  if qty ≤ 0 then (s, q)
  else if !isInbound && decide (item.quantity < qty) then (s, q)
  else if isInbound then handleStockInRequest nowMs nowStr item qty s q
  else handleStockOutRequest nowMs nowStr item qty s q

/-! ### Generic list helpers -/

theorem map_id_of_eq {α : Type} (f : α → α) (l : List α) (h : ∀ a ∈ l, f a = a) :
    l.map f = l := by
  induction l with
  | nil => rfl
  | cons a t ih =>
      simp only [List.map_cons, h a (List.mem_cons_self a t)]
      exact congrArg (a :: ·) (ih (fun b hb => h b (List.mem_cons_of_mem a hb)))

theorem find?_split {α : Type} (p : α → Bool) (l1 l2 : List α) (e : α)
    (h1 : ∀ a ∈ l1, p a = false) (he : p e = true) :
    (l1 ++ e :: l2).find? p = some e := by
  induction l1 with
  | nil => simp [List.find?_cons, he]
  | cons a t ih =>
      have ha : p a = false := h1 a (List.mem_cons_self a t)
      simp only [List.cons_append, List.find?_cons, ha]
      exact ih (fun b hb => h1 b (List.mem_cons_of_mem a hb))

theorem find?_map_invariant {α : Type} (p : α → Bool) (f : α → α)
    (hf : ∀ a, p (f a) = p a) (l : List α) :
    (l.map f).find? p = (l.find? p).map f := by
  induction l with
  | nil => rfl
  | cons a t ih =>
      simp only [List.map_cons, List.find?_cons, hf a]
      cases h : p a <;> simp [h, ih]

theorem map_keyed_update_split {α κ : Type} [BEq κ] [LawfulBEq κ]
    (key : α → κ) (f : α → α) (k : κ) (l1 l2 : List α) (e : α)
    (h1 : ∀ a ∈ l1, key a ≠ k) (h2 : ∀ a ∈ l2, key a ≠ k) (he : key e = k) :
    (l1 ++ e :: l2).map (fun a => if key a == k then f a else a) = l1 ++ f e :: l2 := by
  have hl1 : l1.map (fun a => if key a == k then f a else a) = l1 :=
    map_id_of_eq _ _ (fun a ha => by simp [h1 a ha])
  have hl2 : l2.map (fun a => if key a == k then f a else a) = l2 :=
    map_id_of_eq _ _ (fun a ha => by simp [h2 a ha])
  simp [hl1, hl2, he]

theorem find?_keyed_split {α κ : Type} [BEq κ] [LawfulBEq κ]
    (key : α → κ) (k : κ) (l1 l2 : List α) (e : α)
    (h1 : ∀ a ∈ l1, key a ≠ k) (he : key e = k) :
    (l1 ++ e :: l2).find? (fun a => key a == k) = some e :=
  find?_split _ l1 l2 e (fun a ha => by simp [h1 a ha]) (by simp [he])

theorem find?_append_of_some {α : Type} (p : α → Bool) (l1 l2 : List α) (a : α)
    (h : l1.find? p = some a) : (l1 ++ l2).find? p = some a := by
  induction l1 with
  | nil => cases h
  | cons b t ih =>
      rw [List.cons_append]
      cases hb : p b with
      | true =>
          rw [List.find?_cons_of_pos _ hb]
          rw [List.find?_cons_of_pos _ hb] at h
          exact h
      | false =>
          rw [List.find?_cons_of_neg _ (by simp [hb])]
          rw [List.find?_cons_of_neg _ (by simp [hb])] at h
          exact ih h

theorem find?_key_of_mem_nodup {α κ : Type} [BEq κ] [LawfulBEq κ]
    (key : α → κ) (l : List α) (hnd : (l.map key).Nodup) (a : α) (ha : a ∈ l) :
    l.find? (fun e => key e == key a) = some a := by
  induction l with
  | nil => cases ha
  | cons b t ih =>
      rcases List.mem_cons.mp ha with rfl | hat
      · exact List.find?_cons_of_pos t (by simp)
      · have hnb : key b ∉ t.map key := (List.nodup_cons.mp (by simpa using hnd)).1
        have hne : key b ≠ key a := by
          intro hcontra
          exact hnb (by rw [hcontra]; exact List.mem_map_of_mem key hat)
        rw [List.find?_cons_of_neg t (by simp [hne])]
        exact ih (List.nodup_cons.mp (by simpa using hnd)).2 hat

/-! ### Structured-state lemmas for the approve and reject handlers -/

theorem approveStep_ne (nowMs rand : Nat) (nowStr txId : String) (s : AppState)
    (acc : List Transaction × List Item × SyncQueue) (tx : Transaction)
    (h : tx.id ≠ txId) :
    approveStep nowMs rand nowStr txId s acc tx = (acc.1 ++ [tx], acc.2.1, acc.2.2) := by
  simp [approveStep, h]

theorem foldl_approveStep_ne (nowMs rand : Nat) (nowStr txId : String) (s : AppState)
    (txs : List Transaction) (h : ∀ tx ∈ txs, tx.id ≠ txId)
    (acc : List Transaction × List Item × SyncQueue) :
    txs.foldl (approveStep nowMs rand nowStr txId s) acc =
      (acc.1 ++ txs, acc.2.1, acc.2.2) := by
  induction txs generalizing acc with
  | nil => simp
  | cons tx t ih =>
      rw [List.foldl_cons,
        approveStep_ne nowMs rand nowStr txId s acc tx (h tx (List.mem_cons_self tx t)),
        ih (fun u hu => h u (List.mem_cons_of_mem tx hu))]
      simp

theorem handleApprove_structured (nowMs rand : Nat) (nowStr : String)
    (s : AppState) (q : SyncQueue) (t1 t2 : List Transaction) (tx : Transaction)
    (src : Item) (hsplit : s.transactions = t1 ++ tx :: t2)
    (h1 : ∀ u ∈ t1, u.id ≠ tx.id) (h2 : ∀ u ∈ t2, u.id ≠ tx.id)
    (hfind : s.items.find? (fun i => i.id == tx.itemId) = some src) :
    handleApproveTransaction nowMs rand nowStr tx.id s q =
      ({ s with
          transactions := t1 ++ { tx with status := TxStatus.APPROVED } :: t2,
          items := applyApproveItems nowMs rand nowStr s.warehouses s.categories
            tx src s.items },
       enqueueSyncAction "APPROVE" (SyncPayload.approveRef tx.id) nowStr q) := by
  unfold handleApproveTransaction
  rw [hsplit, List.foldl_append,
    foldl_approveStep_ne nowMs rand nowStr tx.id s t1 h1 ([], s.items, q),
    List.foldl_cons]
  have hstep : approveStep nowMs rand nowStr tx.id s (([] : List Transaction) ++ t1, s.items, q) tx =
      (([] ++ t1) ++ [{ tx with status := TxStatus.APPROVED }],
       applyApproveItems nowMs rand nowStr s.warehouses s.categories tx src s.items,
       enqueueSyncAction "APPROVE" (SyncPayload.approveRef tx.id) nowStr q) := by
    simp [approveStep, hfind]
  rw [hstep, foldl_approveStep_ne nowMs rand nowStr tx.id s t2 h2]
  simp

theorem handleApprove_absent (nowMs rand : Nat) (nowStr txId : String)
    (s : AppState) (q : SyncQueue) (h : ∀ u ∈ s.transactions, u.id ≠ txId) :
    handleApproveTransaction nowMs rand nowStr txId s q = (s, q) := by
  unfold handleApproveTransaction
  rw [foldl_approveStep_ne nowMs rand nowStr txId s s.transactions h ([], s.items, q)]
  simp

theorem handleApprove_noSource (nowMs rand : Nat) (nowStr : String)
    (s : AppState) (q : SyncQueue) (t1 t2 : List Transaction) (tx : Transaction)
    (hsplit : s.transactions = t1 ++ tx :: t2)
    (h1 : ∀ u ∈ t1, u.id ≠ tx.id) (h2 : ∀ u ∈ t2, u.id ≠ tx.id)
    (hfind : s.items.find? (fun i => i.id == tx.itemId) = none) :
    handleApproveTransaction nowMs rand nowStr tx.id s q = (s, q) := by
  unfold handleApproveTransaction
  rw [hsplit, List.foldl_append,
    foldl_approveStep_ne nowMs rand nowStr tx.id s t1 h1 ([], s.items, q),
    List.foldl_cons]
  have hstep : approveStep nowMs rand nowStr tx.id s (([] : List Transaction) ++ t1, s.items, q) tx =
      (([] ++ t1) ++ [tx], s.items, q) := by
    simp [approveStep, hfind]
  rw [hstep, foldl_approveStep_ne nowMs rand nowStr tx.id s t2 h2]
  simp [hsplit.symm]

theorem rejectStep_ne (nowStr txId reason : String)
    (acc : List Transaction × SyncQueue) (tx : Transaction) (h : tx.id ≠ txId) :
    rejectStep nowStr txId reason acc tx = (acc.1 ++ [tx], acc.2) := by
  simp [rejectStep, h]

theorem foldl_rejectStep_ne (nowStr txId reason : String)
    (txs : List Transaction) (h : ∀ tx ∈ txs, tx.id ≠ txId)
    (acc : List Transaction × SyncQueue) :
    txs.foldl (rejectStep nowStr txId reason) acc = (acc.1 ++ txs, acc.2) := by
  induction txs generalizing acc with
  | nil => simp
  | cons tx t ih =>
      rw [List.foldl_cons,
        rejectStep_ne nowStr txId reason acc tx (h tx (List.mem_cons_self tx t)),
        ih (fun u hu => h u (List.mem_cons_of_mem tx hu))]
      simp

theorem handleReject_structured (nowStr reason : String) (s : AppState)
    (q : SyncQueue) (t1 t2 : List Transaction) (tx : Transaction)
    (hsplit : s.transactions = t1 ++ tx :: t2)
    (h1 : ∀ u ∈ t1, u.id ≠ tx.id) (h2 : ∀ u ∈ t2, u.id ≠ tx.id) :
    handleRejectTransaction nowStr tx.id reason s q =
      ({ s with
          transactions := t1 ++
            { tx with status := TxStatus.REJECTED, rejectionReason := some reason } :: t2 },
       enqueueSyncAction "REJECT" (SyncPayload.rejectRef tx.id reason) nowStr q) := by
  unfold handleRejectTransaction
  rw [hsplit, List.foldl_append,
    foldl_rejectStep_ne nowStr tx.id reason t1 h1 ([], q), List.foldl_cons]
  have hstep : rejectStep nowStr tx.id reason (([] : List Transaction) ++ t1, q) tx =
      (([] ++ t1) ++
        [{ tx with status := TxStatus.REJECTED, rejectionReason := some reason }],
       enqueueSyncAction "REJECT" (SyncPayload.rejectRef tx.id reason) nowStr q) := by
    simp [rejectStep]
  rw [hstep, foldl_rejectStep_ne nowStr tx.id reason t2 h2]
  simp

/-! ### Branch lemmas for the items updater of the approval handler -/

/-- Abbreviation for the decrement pass of the `setItems` updater. -/
def decrementSource (nowStr : String) (tx : Transaction) (l : List Item) : List Item :=
  l.map (fun i =>
    if i.id == tx.itemId then
      { i with quantity := i.quantity - tx.quantity, lastUpdated := nowStr }
    else i)

/-- Abbreviation for the merge-target predicate of the TRANSFER branch. -/
def matchesTarget (target : String) (sourceItem : Item) (i : Item) : Bool :=
  i.warehouseId == target && i.categoryId == sourceItem.categoryId &&
    i.name == sourceItem.name

theorem applyApproveItems_not_transfer (nowMs rand : Nat) (nowStr : String)
    (ws : List Warehouse) (cs : List Category) (tx : Transaction) (src : Item)
    (l : List Item) (h : tx.type ≠ TxType.TRANSFER) :
    applyApproveItems nowMs rand nowStr ws cs tx src l = decrementSource nowStr tx l := by
  simp [applyApproveItems, decrementSource, h]

theorem applyApproveItems_transfer_merge (nowMs rand : Nat) (nowStr : String)
    (ws : List Warehouse) (cs : List Category) (tx : Transaction) (src : Item)
    (l : List Item) (target : String) (y : Item)
    (htype : tx.type = TxType.TRANSFER) (htgt : tx.targetWarehouseId = some target)
    (hfound : (decrementSource nowStr tx l).find? (matchesTarget target src) = some y) :
    applyApproveItems nowMs rand nowStr ws cs tx src l =
      (decrementSource nowStr tx l).map (fun i =>
        if i.id == y.id then
          { i with quantity := i.quantity + tx.quantity, lastUpdated := nowStr }
        else i) := by
  have hfound2 : List.find?
      (fun i => i.warehouseId == target && i.categoryId == src.categoryId &&
        i.name == src.name)
      (List.map (fun i =>
        if i.id == tx.itemId then
          ({ i with quantity := i.quantity - tx.quantity, lastUpdated := nowStr } : Item)
        else i) l) = some y := hfound
  simp only [applyApproveItems, htype, htgt, if_true]
  rw [hfound2]
  simp only [decrementSource]

theorem applyApproveItems_transfer_create (nowMs rand : Nat) (nowStr : String)
    (ws : List Warehouse) (cs : List Category) (tx : Transaction) (src : Item)
    (l : List Item) (target : String) (w : Warehouse) (c : Category)
    (htype : tx.type = TxType.TRANSFER) (htgt : tx.targetWarehouseId = some target)
    (hnone : (decrementSource nowStr tx l).find? (matchesTarget target src) = none)
    (hw : ws.find? (fun u => u.id == target) = some w)
    (hc : cs.find? (fun u => u.id == src.categoryId) = some c) :
    applyApproveItems nowMs rand nowStr ws cs tx src l =
      decrementSource nowStr tx l ++
        [{ src with
            id := mkNewItemId nowMs rand,
            warehouseId := target,
            quantity := tx.quantity,
            barcode := w.pfx ++ "-" ++ c.code ++ "-" ++ toString nowMs,
            lastUpdated := nowStr }] := by
  have hnone2 : List.find?
      (fun i => i.warehouseId == target && i.categoryId == src.categoryId &&
        i.name == src.name)
      (List.map (fun i =>
        if i.id == tx.itemId then
          ({ i with quantity := i.quantity - tx.quantity, lastUpdated := nowStr } : Item)
        else i) l) = none := hnone
  simp only [applyApproveItems, htype, htgt, if_true]
  rw [hnone2, hw, hc]
  simp only [decrementSource, mkNewItemId]

/-- Create branch of the TRANSFER updater with the barcode left abstract: when
no item of the target warehouse matches, a clone of the source is appended,
whatever the warehouse and category lookups produced for the barcode. -/
theorem applyApproveItems_transfer_create_exists (nowMs rand : Nat) (nowStr : String)
    (ws : List Warehouse) (cs : List Category) (tx : Transaction) (src : Item)
    (l : List Item) (target : String)
    (htype : tx.type = TxType.TRANSFER) (htgt : tx.targetWarehouseId = some target)
    (hnone : (decrementSource nowStr tx l).find? (matchesTarget target src) = none) :
    ∃ bc : String, applyApproveItems nowMs rand nowStr ws cs tx src l =
      decrementSource nowStr tx l ++
        [{ src with
            id := mkNewItemId nowMs rand,
            warehouseId := target,
            quantity := tx.quantity,
            barcode := bc,
            lastUpdated := nowStr }] := by
  have hnone2 : List.find?
      (fun i => i.warehouseId == target && i.categoryId == src.categoryId &&
        i.name == src.name)
      (List.map (fun i =>
        if i.id == tx.itemId then
          ({ i with quantity := i.quantity - tx.quantity, lastUpdated := nowStr } : Item)
        else i) l) = none := hnone
  simp only [applyApproveItems, htype, htgt, if_true]
  rw [hnone2]
  refine ⟨(match ws.find? (fun w => w.id == target) with
           | some w => Warehouse.pfx w
           | none => "WH") ++ "-" ++
          (match cs.find? (fun c => c.id == src.categoryId) with
           | some c => c.code
           | none => "GEN") ++ "-" ++ toString nowMs, ?_⟩
  simp only [decrementSource, mkNewItemId]

/-! ### Lemmas about marking sync actions and the sync cycle -/

theorem map_congr_mem {α β : Type} (f g : α → β) (l : List α)
    (h : ∀ a ∈ l, f a = g a) : l.map f = l.map g := by
  induction l with
  | nil => rfl
  | cons a t ih =>
      simp only [List.map_cons, h a (List.mem_cons_self a t)]
      exact congrArg _ (ih (fun b hb => h b (List.mem_cons_of_mem a hb)))

theorem markSynced_of_absent (id : Nat) (q : SyncQueue)
    (h : ∀ e ∈ q.entries, e.id ≠ id) : markSyncActionSynced id q = q := by
  unfold markSyncActionSynced
  have hfind : q.entries.find? (fun a => a.id == id) = none :=
    List.find?_eq_none.mpr (fun a ha => by simp [h a ha])
  rw [hfind]

theorem markFailed_of_absent (id : Nat) (q : SyncQueue)
    (h : ∀ e ∈ q.entries, e.id ≠ id) : markSyncActionFailed id q = q := by
  unfold markSyncActionFailed
  have hfind : q.entries.find? (fun a => a.id == id) = none :=
    List.find?_eq_none.mpr (fun a ha => by simp [h a ha])
  rw [hfind]

theorem markSynced_entries (id : Nat) (q : SyncQueue)
    (hnd : (q.entries.map SyncAction.id).Nodup) :
    (markSyncActionSynced id q).entries = q.entries.map (fun e =>
      if e.id == id then { e with status := SyncStatus.SYNCED } else e) := by
  unfold markSyncActionSynced
  cases hfind : q.entries.find? (fun a => a.id == id) with
  | none =>
      have hno := List.find?_eq_none.mp hfind
      exact (map_id_of_eq _ _ (fun e he => by
        have : ¬ (e.id == id) = true := hno e he
        simp at this
        simp [this])).symm
  | some a =>
      have hmem : a ∈ q.entries := List.mem_of_find?_eq_some hfind
      have hid : a.id = id := by have := List.find?_some hfind; simpa using this
      exact map_congr_mem _ _ _ (fun e he => by
        by_cases hcase : e.id = id
        · have : e = a := List.inj_on_of_nodup_map hnd he hmem (by rw [hcase, hid])
          simp [hcase, this]
        · simp [hcase])

theorem markFailed_entries (id : Nat) (q : SyncQueue)
    (hnd : (q.entries.map SyncAction.id).Nodup) :
    (markSyncActionFailed id q).entries = q.entries.map (fun e =>
      if e.id == id then
        { e with status := SyncStatus.FAILED, retries := e.retries + 1 }
      else e) := by
  unfold markSyncActionFailed
  cases hfind : q.entries.find? (fun a => a.id == id) with
  | none =>
      have hno := List.find?_eq_none.mp hfind
      exact (map_id_of_eq _ _ (fun e he => by
        have : ¬ (e.id == id) = true := hno e he
        simp at this
        simp [this])).symm
  | some a =>
      have hmem : a ∈ q.entries := List.mem_of_find?_eq_some hfind
      have hid : a.id = id := by have := List.find?_some hfind; simpa using this
      exact map_congr_mem _ _ _ (fun e he => by
        by_cases hcase : e.id = id
        · have : e = a := List.inj_on_of_nodup_map hnd he hmem (by rw [hcase, hid])
          simp [hcase, this]
        · simp [hcase])

theorem markSynced_ids (id : Nat) (q : SyncQueue)
    (hnd : (q.entries.map SyncAction.id).Nodup) :
    (markSyncActionSynced id q).entries.map SyncAction.id =
      q.entries.map SyncAction.id := by
  rw [markSynced_entries id q hnd, List.map_map]
  exact map_congr_mem _ _ _ (fun e _ => by by_cases h : e.id = id <;> simp [h])

theorem markFailed_ids (id : Nat) (q : SyncQueue)
    (hnd : (q.entries.map SyncAction.id).Nodup) :
    (markSyncActionFailed id q).entries.map SyncAction.id =
      q.entries.map SyncAction.id := by
  rw [markFailed_entries id q hnd, List.map_map]
  exact map_congr_mem _ _ _ (fun e _ => by by_cases h : e.id = id <;> simp [h])

theorem foldl_markSynced (batch : List SyncAction) (q : SyncQueue)
    (hnd : (q.entries.map SyncAction.id).Nodup) :
    (batch.foldl (fun acc a => markSyncActionSynced a.id acc) q).entries =
      q.entries.map (fun e =>
        if batch.any (fun a => e.id == a.id) then
          { e with status := SyncStatus.SYNCED }
        else e) := by
  induction batch generalizing q with
  | nil =>
      simp only [List.foldl_nil, List.any_nil, Bool.false_eq_true, if_false]
      exact (map_id_of_eq _ _ (fun e _ => rfl)).symm
  | cons a t ih =>
      rw [List.foldl_cons]
      have hnd2 : ((markSyncActionSynced a.id q).entries.map SyncAction.id).Nodup := by
        rw [markSynced_ids a.id q hnd]; exact hnd
      rw [ih (markSyncActionSynced a.id q) hnd2, markSynced_entries a.id q hnd,
        List.map_map]
      exact map_congr_mem _ _ _ (fun e _ => by
        by_cases hcase : e.id = a.id
        · by_cases ht : t.any (fun b => e.id == b.id) <;> simp [hcase, ht]
        · simp [hcase])

theorem foldl_markFailed (batch : List SyncAction) (q : SyncQueue)
    (hnd : (q.entries.map SyncAction.id).Nodup)
    (hbatch : (batch.map SyncAction.id).Nodup) :
    (batch.foldl (fun acc a => markSyncActionFailed a.id acc) q).entries =
      q.entries.map (fun e =>
        if batch.any (fun a => e.id == a.id) then
          { e with status := SyncStatus.FAILED, retries := e.retries + 1 }
        else e) := by
  induction batch generalizing q with
  | nil =>
      simp only [List.foldl_nil, List.any_nil, Bool.false_eq_true, if_false]
      exact (map_id_of_eq _ _ (fun e _ => rfl)).symm
  | cons a t ih =>
      rw [List.foldl_cons]
      have hnd2 : ((markSyncActionFailed a.id q).entries.map SyncAction.id).Nodup := by
        rw [markFailed_ids a.id q hnd]; exact hnd
      have hbt : (t.map SyncAction.id).Nodup := (List.nodup_cons.mp hbatch).2
      have hanotin : a.id ∉ t.map SyncAction.id := (List.nodup_cons.mp hbatch).1
      rw [ih (markSyncActionFailed a.id q) hnd2 hbt, markFailed_entries a.id q hnd,
        List.map_map]
      exact map_congr_mem _ _ _ (fun e _ => by
        by_cases hcase : e.id = a.id
        · have hnone : ¬ ∃ x ∈ t, a.id = x.id := by
            rintro ⟨b, hb, hbeq⟩
            exact hanotin (by rw [hbeq]; exact List.mem_map_of_mem SyncAction.id hb)
          simp [hcase, hnone]
        · simp [hcase])

theorem pending_any_iff (q : SyncQueue) (hnd : (q.entries.map SyncAction.id).Nodup)
    (e : SyncAction) (he : e ∈ q.entries) :
    (getPendingSyncActions q).any (fun a => e.id == a.id) =
      (e.status == SyncStatus.PENDING) := by
  by_cases hp : e.status = SyncStatus.PENDING
  · have hin : e ∈ getPendingSyncActions q := by
      unfold getPendingSyncActions
      exact List.mem_filter.mpr ⟨he, by simp [hp]⟩
    have : (getPendingSyncActions q).any (fun a => e.id == a.id) = true := by
      rw [List.any_eq_true]; exact ⟨e, hin, by simp⟩
    simp [this, hp]
  · have : (getPendingSyncActions q).any (fun a => e.id == a.id) = false := by
      rw [List.any_eq_false]
      intro a ha hbeq
      have hamem : a ∈ q.entries := (List.mem_filter.mp ha).1
      have hap : a.status = SyncStatus.PENDING := by
        have := (List.mem_filter.mp ha).2; simpa using this
      simp only [beq_iff_eq] at hbeq
      exact hp (by
        have : e = a := List.inj_on_of_nodup_map hnd he hamem hbeq
        rw [this, hap])
    simp [this, hp]

theorem syncQueue_eq_of (q q' : SyncQueue) (h1 : q.entries = q'.entries)
    (h2 : q.nextId = q'.nextId) : q = q' := by
  cases q; cases q'; simp_all

theorem markSynced_nextId (id : Nat) (q : SyncQueue) :
    (markSyncActionSynced id q).nextId = q.nextId := by
  unfold markSyncActionSynced
  cases q.entries.find? (fun a => a.id == id) <;> rfl

theorem markFailed_nextId (id : Nat) (q : SyncQueue) :
    (markSyncActionFailed id q).nextId = q.nextId := by
  unfold markSyncActionFailed
  cases q.entries.find? (fun a => a.id == id) <;> rfl

theorem syncNow_batch (ok : Bool) (q : SyncQueue) :
    (syncNow ok q).2.2 = getPendingSyncActions q := by
  simp only [syncNow]
  by_cases h : (getPendingSyncActions q).isEmpty
  · rw [if_pos h]
    exact (List.isEmpty_iff.mp h).symm
  · rw [if_neg h]
    cases ok <;> simp

theorem syncNow_success (q : SyncQueue) (h : getPendingSyncActions q ≠ []) :
    syncNow true q =
      ((getPendingSyncActions q).foldl (fun acc a => markSyncActionSynced a.id acc) q,
       0, getPendingSyncActions q) := by
  simp only [syncNow]
  rw [if_neg (by simp [List.isEmpty_iff, h])]
  simp

theorem syncNow_failure (q : SyncQueue) (h : getPendingSyncActions q ≠ []) :
    syncNow false q =
      ((getPendingSyncActions q).foldl (fun acc a => markSyncActionFailed a.id acc) q,
       (getPendingSyncActions q).length, getPendingSyncActions q) := by
  simp only [syncNow]
  rw [if_neg (by simp [List.isEmpty_iff, h])]
  simp

theorem pending_ids_nodup (q : SyncQueue)
    (hnd : (q.entries.map SyncAction.id).Nodup) :
    ((getPendingSyncActions q).map SyncAction.id).Nodup :=
  hnd.sublist ((List.filter_sublist q.entries).map SyncAction.id)

/-! ### Quantity bookkeeping for the conservation claim -/

/-- Total quantity over the items carrying a given name and category id (the
merge key used by the TRANSFER branch). -/
def sumQty (n c : String) : List Item → Int
  | [] => 0
  | i :: t => (if i.name == n && i.categoryId == c then i.quantity else 0) + sumQty n c t

theorem sumQty_append (n c : String) (l1 l2 : List Item) :
    sumQty n c (l1 ++ l2) = sumQty n c l1 + sumQty n c l2 := by
  induction l1 with
  | nil => simp [sumQty]
  | cons a t ih => simp [sumQty, ih]; ring

theorem sumQty_map_update (n c : String) (k : String) (f : Item → Item)
    (hfname : ∀ i, (f i).name = i.name) (hfcat : ∀ i, (f i).categoryId = i.categoryId)
    (l : List Item) (hnd : (l.map Item.id).Nodup) (e : Item) (he : e ∈ l)
    (hek : e.id = k) :
    sumQty n c (l.map (fun i => if i.id == k then f i else i)) =
      sumQty n c l +
        (if e.name == n && e.categoryId == c then (f e).quantity - e.quantity else 0) := by
  induction l with
  | nil => cases he
  | cons a t ih =>
      rw [List.map_cons]
      rcases List.mem_cons.mp he with rfl | het
      · have hat : ∀ b ∈ t, b.id ≠ k := by
          intro b hb hbk
          have hnotin : e.id ∉ t.map Item.id := (List.nodup_cons.mp (by simpa using hnd)).1
          exact hnotin (by rw [hek, ← hbk]; exact List.mem_map_of_mem Item.id hb)
        have htmap : t.map (fun i => if i.id == k then f i else i) = t :=
          map_id_of_eq _ _ (fun b hb => by simp [hat b hb])
        have hpred : ((f e).name == n && (f e).categoryId == c) =
            (e.name == n && e.categoryId == c) := by
          rw [hfname e, hfcat e]
        simp only [sumQty, hek, beq_self_eq_true, if_true, htmap, hpred]
        by_cases hp : (e.name == n && e.categoryId == c) = true
        · simp [hp]; ring
        · simp [hp]
      · have hak : a.id ≠ k := by
          intro hakk
          have hnotin : a.id ∉ t.map Item.id := (List.nodup_cons.mp (by simpa using hnd)).1
          exact hnotin (by rw [hakk, ← hek]; exact List.mem_map_of_mem Item.id het)
        have hnd2 : (t.map Item.id).Nodup := (List.nodup_cons.mp (by simpa using hnd)).2
        simp only [sumQty]
        rw [if_neg (show ¬ ((a.id == k) = true) by simp [hak]), ih hnd2 het]
        ring

/-! ### Concrete sample data used by witnesses and counterexamples -/

def sampleWarehouseA : Warehouse := { id := "w1", name := "Alpha Hub", pfx := "AL" }

def sampleWarehouseB : Warehouse := { id := "w2", name := "Beta Hub", pfx := "BE" }

def sampleCategory : Category :=
  { id := "c1", name := "Steel", code := "STL", parentId := none }

def sampleItem (qty : Int) : Item :=
  { id := "i1", name := "Rod", warehouseId := "w1", categoryId := "c1",
    quantity := qty, baseCost := 2, freight := 1, duties := 0, taxes := 0,
    trueUnitCost := 3, status := ItemStatus.RAW, barcode := "AL-STL-1",
    lastUpdated := "t0" }

def sampleItemB : Item :=
  { sampleItem 4 with id := "i2", warehouseId := "w2", barcode := "BE-STL-0" }

def sampleOutTx (qty : Int) : Transaction :=
  { id := "T1", type := TxType.STOCK_OUT, itemId := "i1", warehouseId := "w1",
    targetWarehouseId := none, quantity := qty, status := TxStatus.PENDING,
    staffName := "John Staff", timestamp := "t0", rejectionReason := none }

def sampleTransferTx (txId : String) (qty : Int) : Transaction :=
  { id := txId, type := TxType.TRANSFER, itemId := "i1", warehouseId := "w1",
    targetWarehouseId := some "w2", quantity := qty, status := TxStatus.PENDING,
    staffName := "John Staff", timestamp := "t0", rejectionReason := none }

def emptyQueue : SyncQueue := { entries := [], nextId := 1 }

def sampleAction (id : Nat) (st : SyncStatus) (retries : Nat) : SyncAction :=
  { id := id, type := "APPROVE", payload := SyncPayload.approveRef "T1",
    status := st, timestamp := "t0", retries := retries }

/-! ### C3 -/

/-- C3: after any request handler call (stock-in, stock-out or transfer) the
new transaction exists in the transactions collection with status PENDING and
a matching sync action — same type, payload carrying that very transaction —
is enqueued PENDING in the same step; items are untouched.  Both effects are
produced together by the one handler, so the queue entry and the state
mutation form one atomic unit: it is impossible to observe one without the
other. -/
theorem C3_request_atomicity (nowMs : Nat) (nowStr : String) (item : Item)
    (targetWhId : String) (qty : Int) (s : AppState) (q : SyncQueue) :
    (∃ newTx : Transaction,
      newTx.status = TxStatus.PENDING ∧
      (handleStockInRequest nowMs nowStr item qty s q).1.transactions =
        s.transactions ++ [newTx] ∧
      (handleStockInRequest nowMs nowStr item qty s q).1.items = s.items ∧
      (handleStockInRequest nowMs nowStr item qty s q).2.entries =
        q.entries ++ [{ id := q.nextId, type := "STOCK_IN",
                        payload := SyncPayload.tx newTx,
                        status := SyncStatus.PENDING,
                        timestamp := nowStr, retries := 0 }]) ∧
    (∃ newTx : Transaction,
      newTx.status = TxStatus.PENDING ∧
      (handleStockOutRequest nowMs nowStr item qty s q).1.transactions =
        s.transactions ++ [newTx] ∧
      (handleStockOutRequest nowMs nowStr item qty s q).1.items = s.items ∧
      (handleStockOutRequest nowMs nowStr item qty s q).2.entries =
        q.entries ++ [{ id := q.nextId, type := "STOCK_OUT",
                        payload := SyncPayload.tx newTx,
                        status := SyncStatus.PENDING,
                        timestamp := nowStr, retries := 0 }]) ∧
    (∃ newTx : Transaction,
      newTx.status = TxStatus.PENDING ∧
      (handleTransferRequest nowMs nowStr item targetWhId qty s q).1.transactions =
        s.transactions ++ [newTx] ∧
      (handleTransferRequest nowMs nowStr item targetWhId qty s q).1.items = s.items ∧
      (handleTransferRequest nowMs nowStr item targetWhId qty s q).2.entries =
        q.entries ++ [{ id := q.nextId, type := "TRANSFER",
                        payload := SyncPayload.tx newTx,
                        status := SyncStatus.PENDING,
                        timestamp := nowStr, retries := 0 }]) := by
  refine ⟨⟨_, rfl, rfl, rfl, rfl⟩, ⟨_, rfl, rfl, rfl, rfl⟩, ⟨_, rfl, rfl, rfl, rfl⟩⟩

/-! ### C7 -/

/-- C7: rejecting with an empty reason is refused with no state change; with a
non-empty reason the (unique) matching transaction becomes REJECTED carrying
exactly that reason, no item is mutated, and a REJECT sync action carrying the
transaction id and the reason is enqueued. -/
theorem C7_reject_requires_reason :
    (∀ (nowStr txId : String) (s : AppState) (q : SyncQueue),
      handleFinalReject nowStr txId "" s q = (s, q)) ∧
    (∀ (nowStr reason : String) (s : AppState) (q : SyncQueue)
      (t1 t2 : List Transaction) (tx : Transaction),
      reason ≠ "" →
      s.transactions = t1 ++ tx :: t2 →
      (∀ u ∈ t1, u.id ≠ tx.id) → (∀ u ∈ t2, u.id ≠ tx.id) →
      handleFinalReject nowStr tx.id reason s q =
        ({ s with transactions := t1 ++
            { tx with status := TxStatus.REJECTED,
                      rejectionReason := some reason } :: t2 },
         enqueueSyncAction "REJECT" (SyncPayload.rejectRef tx.id reason) nowStr q) ∧
      (handleFinalReject nowStr tx.id reason s q).1.items = s.items) := by
  constructor
  · intro nowStr txId s q
    simp [handleFinalReject]
  · intro nowStr reason s q t1 t2 tx hreason hsplit h1 h2
    have hne : (reason == "") = false := by simp [hreason]
    have heq : handleFinalReject nowStr tx.id reason s q =
        handleRejectTransaction nowStr tx.id reason s q := by
      simp [handleFinalReject, hne]
    rw [heq, handleReject_structured nowStr reason s q t1 t2 tx hsplit h1 h2]
    exact ⟨rfl, rfl⟩

/-- Witness for C7 at concrete inputs: the two reject paths evaluated on a
one-transaction state. -/
theorem C7_reject_requires_reason_witness :
    (handleFinalReject "t1" "T1" ""
      { items := [sampleItem 9], warehouses := [sampleWarehouseA],
        categories := [sampleCategory], transactions := [sampleOutTx 5] }
      emptyQueue =
      ({ items := [sampleItem 9], warehouses := [sampleWarehouseA],
         categories := [sampleCategory], transactions := [sampleOutTx 5] },
       emptyQueue)) ∧
    ("Hub Capacity Reached" ≠ "") ∧
    (handleFinalReject "t1" "T1" "Hub Capacity Reached"
      { items := [sampleItem 9], warehouses := [sampleWarehouseA],
        categories := [sampleCategory], transactions := [sampleOutTx 5] }
      emptyQueue =
      ({ items := [sampleItem 9], warehouses := [sampleWarehouseA],
         categories := [sampleCategory],
         transactions := [{ sampleOutTx 5 with
            status := TxStatus.REJECTED,
            rejectionReason := some "Hub Capacity Reached" }] },
       enqueueSyncAction "REJECT"
         (SyncPayload.rejectRef "T1" "Hub Capacity Reached") "t1" emptyQueue)) := by
  refine ⟨C7_reject_requires_reason.1 "t1" "T1" _ emptyQueue, by decide, ?_⟩
  exact (C7_reject_requires_reason.2 "t1" "Hub Capacity Reached" _ emptyQueue
    [] [] (sampleOutTx 5) (by decide) rfl (by simp) (by simp)).1

/-! ### C8 -/

/-- C8: a request with a non-positive quantity, and an outbound request whose
quantity exceeds the current stock, are refused before any mutation: the state
and the sync queue are returned unchanged, so no transaction is created and no
sync action is enqueued.  (The modal parses the quantity with parseInt, so a
non-integer input collapses to an integer, and a non-numeric one to 0, which
the first check rejects.) -/
theorem C8_request_validation :
    (∀ (isInbound : Bool) (nowMs : Nat) (nowStr : String) (item : Item)
      (qty : Int) (s : AppState) (q : SyncQueue),
      qty ≤ 0 →
      validateAndConfirm isInbound nowMs nowStr item qty s q = (s, q)) ∧
    (∀ (nowMs : Nat) (nowStr : String) (item : Item) (qty : Int)
      (s : AppState) (q : SyncQueue),
      item.quantity < qty →
      validateAndConfirm false nowMs nowStr item qty s q = (s, q)) := by
  constructor
  · intro isInbound nowMs nowStr item qty s q h
    simp [validateAndConfirm, h]
  · intro nowMs nowStr item qty s q h
    by_cases hq : qty ≤ 0
    · simp [validateAndConfirm, hq]
    · simp [validateAndConfirm, hq, h]

/-- Witness for C8 at concrete inputs: quantity 0 inbound and an outbound
quantity of 5 against a stock of 3 are both refused unchanged. -/
theorem C8_request_validation_witness :
    ((0 : Int) ≤ 0) ∧
    (validateAndConfirm true 7 "t1" (sampleItem 3) 0
      { items := [sampleItem 3], warehouses := [], categories := [],
        transactions := [] } emptyQueue =
      ({ items := [sampleItem 3], warehouses := [], categories := [],
         transactions := [] }, emptyQueue)) ∧
    ((sampleItem 3).quantity < 5) ∧
    (validateAndConfirm false 7 "t1" (sampleItem 3) 5
      { items := [sampleItem 3], warehouses := [], categories := [],
        transactions := [] } emptyQueue =
      ({ items := [sampleItem 3], warehouses := [], categories := [],
         transactions := [] }, emptyQueue)) :=
  ⟨by decide,
   C8_request_validation.1 true 7 "t1" (sampleItem 3) 0 _ emptyQueue (by decide),
   by decide,
   C8_request_validation.2 7 "t1" (sampleItem 3) 5 _ emptyQueue (by decide)⟩

/-! ### C1 -/

/-- C1 counterexample: approving a PENDING STOCK_OUT of 5 units against a stock
of 1 does not fail and does not leave the transaction PENDING: the item is
driven to quantity -4 and the transaction is marked APPROVED, refuting the
claimed InsufficientStock rejection and the no-negative-stock invariant. -/
theorem C1_counterexample_negative_stock :
    ((handleApproveTransaction 7 3 "t1" "T1"
        ⟨[sampleItem 1], [sampleWarehouseA], [sampleCategory], [sampleOutTx 5]⟩
        emptyQueue).1.items.map Item.quantity = [-4]) ∧
    ((handleApproveTransaction 7 3 "t1" "T1"
        ⟨[sampleItem 1], [sampleWarehouseA], [sampleCategory], [sampleOutTx 5]⟩
        emptyQueue).1.transactions.map Transaction.status = [TxStatus.APPROVED]) := by
  decide

/-- C1 amended: approval performs no stock check at all, for STOCK_OUT and for
TRANSFER alike.  With no hypothesis relating `tx.quantity` to the source
quantity, the approval always succeeds.  First arm: for a STOCK_OUT the
quantity of the source item becomes `quantity - tx.quantity` (negative
whenever `tx.quantity` exceeds the stock), the transaction is marked APPROVED
rather than staying PENDING, and an APPROVE action is enqueued.  Second arm:
for a TRANSFER to a different warehouse (the only transfers the request flow
can create, since TransferItemModal refuses the source warehouse) the same
holds: the transaction is marked APPROVED, an APPROVE action is enqueued, and
the source item ends at `quantity - tx.quantity`, whether the target merges
or a clone is created.  No InsufficientStock error exists in the code. -/
theorem C1_approval_decrements_unconditionally :
    (∀ (nowMs rand : Nat) (nowStr : String) (s : AppState) (q : SyncQueue)
      (t1 t2 : List Transaction) (tx : Transaction) (i1 i2 : List Item) (src : Item),
      tx.type = TxType.STOCK_OUT →
      s.transactions = t1 ++ tx :: t2 →
      (∀ u ∈ t1, u.id ≠ tx.id) → (∀ u ∈ t2, u.id ≠ tx.id) →
      s.items = i1 ++ src :: i2 → src.id = tx.itemId →
      (∀ a ∈ i1, a.id ≠ tx.itemId) → (∀ a ∈ i2, a.id ≠ tx.itemId) →
      handleApproveTransaction nowMs rand nowStr tx.id s q =
        ({ s with
            transactions := t1 ++ { tx with status := TxStatus.APPROVED } :: t2,
            items := i1 ++
              { src with quantity := src.quantity - tx.quantity,
                         lastUpdated := nowStr } :: i2 },
         enqueueSyncAction "APPROVE" (SyncPayload.approveRef tx.id) nowStr q)) ∧
    (∀ (nowMs rand : Nat) (nowStr : String) (s : AppState) (q : SyncQueue)
      (t1 t2 : List Transaction) (tx : Transaction) (i1 i2 : List Item) (src : Item)
      (target : String),
      tx.type = TxType.TRANSFER →
      tx.targetWarehouseId = some target →
      src.warehouseId ≠ target →
      s.transactions = t1 ++ tx :: t2 →
      (∀ u ∈ t1, u.id ≠ tx.id) → (∀ u ∈ t2, u.id ≠ tx.id) →
      s.items = i1 ++ src :: i2 → src.id = tx.itemId →
      (∀ a ∈ i1, a.id ≠ tx.itemId) → (∀ a ∈ i2, a.id ≠ tx.itemId) →
      ((handleApproveTransaction nowMs rand nowStr tx.id s q).1.transactions =
        t1 ++ { tx with status := TxStatus.APPROVED } :: t2 ∧
       (handleApproveTransaction nowMs rand nowStr tx.id s q).2 =
        enqueueSyncAction "APPROVE" (SyncPayload.approveRef tx.id) nowStr q ∧
       (handleApproveTransaction nowMs rand nowStr tx.id s q).1.items.find?
          (fun i => i.id == tx.itemId) =
        some { src with quantity := src.quantity - tx.quantity,
                        lastUpdated := nowStr })) := by
  constructor
  · intro nowMs rand nowStr s q t1 t2 tx i1 i2 src htype hsplit ht1 ht2 hitems
      hsrc hi1 hi2
    have hfind : s.items.find? (fun i => i.id == tx.itemId) = some src := by
      rw [hitems]
      exact find?_keyed_split Item.id tx.itemId i1 i2 src hi1 hsrc
    rw [handleApprove_structured nowMs rand nowStr s q t1 t2 tx src hsplit ht1 ht2 hfind,
      applyApproveItems_not_transfer nowMs rand nowStr s.warehouses s.categories tx
        src s.items (by simp [htype])]
    have hdec : decrementSource nowStr tx s.items =
        i1 ++ { src with quantity := src.quantity - tx.quantity,
                         lastUpdated := nowStr } :: i2 := by
      rw [hitems]
      simp only [decrementSource]
      exact map_keyed_update_split Item.id
        (fun i => { i with quantity := i.quantity - tx.quantity, lastUpdated := nowStr })
        tx.itemId i1 i2 src hi1 hi2 hsrc
    rw [hdec]
  · intro nowMs rand nowStr s q t1 t2 tx i1 i2 src target htype htgt hwh hsplit
      ht1 ht2 hitems hsrc hi1 hi2
    have hfind : s.items.find? (fun i => i.id == tx.itemId) = some src := by
      rw [hitems]
      exact find?_keyed_split Item.id tx.itemId i1 i2 src hi1 hsrc
    rw [handleApprove_structured nowMs rand nowStr s q t1 t2 tx src hsplit ht1 ht2 hfind]
    refine ⟨rfl, rfl, ?_⟩
    show (applyApproveItems nowMs rand nowStr s.warehouses s.categories tx src
        s.items).find? (fun i => i.id == tx.itemId) =
      some { src with quantity := src.quantity - tx.quantity, lastUpdated := nowStr }
    have hdec : decrementSource nowStr tx s.items =
        i1 ++ { src with quantity := src.quantity - tx.quantity,
                         lastUpdated := nowStr } :: i2 := by
      rw [hitems]
      simp only [decrementSource]
      exact map_keyed_update_split Item.id
        (fun i => { i with quantity := i.quantity - tx.quantity, lastUpdated := nowStr })
        tx.itemId i1 i2 src hi1 hi2 hsrc
    have hdecfind : (decrementSource nowStr tx s.items).find?
        (fun i => i.id == tx.itemId) =
        some { src with quantity := src.quantity - tx.quantity,
                        lastUpdated := nowStr } := by
      rw [hdec]
      exact find?_keyed_split Item.id tx.itemId i1 i2 _ hi1 hsrc
    cases hfT : (decrementSource nowStr tx s.items).find? (matchesTarget target src) with
    | some y =>
        rw [applyApproveItems_transfer_merge nowMs rand nowStr s.warehouses
          s.categories tx src s.items target y htype htgt hfT]
        have hyne : y.id ≠ tx.itemId := by
          have hymem : y ∈ decrementSource nowStr tx s.items :=
            List.mem_of_find?_eq_some hfT
          have hy := List.find?_some hfT
          simp only [matchesTarget, Bool.and_eq_true, beq_iff_eq] at hy
          obtain ⟨⟨hywh, _⟩, _⟩ := hy
          rw [hdec] at hymem
          intro hyid
          rcases List.mem_append.mp hymem with hmem1 | hmem2
          · exact hi1 y hmem1 hyid
          · rcases List.mem_cons.mp hmem2 with rfl | hmem3
            · exact hwh hywh
            · exact hi2 y hmem3 hyid
        have hp : ∀ i : Item, (fun i : Item => i.id == tx.itemId)
            (if i.id == y.id then
              ({ i with quantity := i.quantity + tx.quantity,
                        lastUpdated := nowStr } : Item)
            else i) = (i.id == tx.itemId) := by
          intro i
          by_cases h : i.id = y.id <;> simp [h]
        rw [find?_map_invariant _ _ hp, hdecfind]
        have hne : (({ src with
            quantity := src.quantity - tx.quantity,
            lastUpdated := nowStr } : Item).id == y.id) = false := by
          simp only [beq_eq_false_iff_ne, ne_eq]
          show ¬ src.id = y.id
          rw [hsrc]
          exact fun h => hyne h.symm
        simp [hne]
        exact fun h => absurd (h.symm.trans hsrc) hyne
    | none =>
        obtain ⟨bc, hcreate⟩ := applyApproveItems_transfer_create_exists nowMs rand
          nowStr s.warehouses s.categories tx src s.items target htype htgt hfT
        rw [hcreate]
        exact find?_append_of_some _ _ _ _ hdecfind

/-- Witness for C1 amended at concrete inputs: a stock-out of 5 against stock 1
is approved to quantity -4, and a transfer of 10 out of stock 20 to another
warehouse is approved with the source at quantity 10. -/
theorem C1_approval_decrements_unconditionally_witness :
    ((sampleOutTx 5).type = TxType.STOCK_OUT) ∧
    (handleApproveTransaction 7 3 "t1" "T1"
        ⟨[sampleItem 1], [sampleWarehouseA], [sampleCategory], [sampleOutTx 5]⟩
        emptyQueue =
      (⟨[{ sampleItem 1 with quantity := -4, lastUpdated := "t1" }],
        [sampleWarehouseA], [sampleCategory],
        [{ sampleOutTx 5 with status := TxStatus.APPROVED }]⟩,
       enqueueSyncAction "APPROVE" (SyncPayload.approveRef "T1") "t1" emptyQueue)) ∧
    ((sampleTransferTx "R1" 10).type = TxType.TRANSFER) ∧
    ((handleApproveTransaction 100 9 "u1" "R1"
        ⟨[sampleItem 20], [sampleWarehouseA, sampleWarehouseB], [sampleCategory],
         [sampleTransferTx "R1" 10]⟩
        emptyQueue).1.items.find? (fun i => i.id == "i1") =
      some { sampleItem 20 with quantity := 10, lastUpdated := "u1" }) :=
  ⟨by decide,
   C1_approval_decrements_unconditionally.1 7 3 "t1"
     ⟨[sampleItem 1], [sampleWarehouseA], [sampleCategory], [sampleOutTx 5]⟩
     emptyQueue [] [] (sampleOutTx 5) [] [] (sampleItem 1)
     (by decide) rfl (by simp) (by simp) rfl (by decide) (by simp) (by simp),
   by decide,
   (C1_approval_decrements_unconditionally.2 100 9 "u1"
     ⟨[sampleItem 20], [sampleWarehouseA, sampleWarehouseB], [sampleCategory],
      [sampleTransferTx "R1" 10]⟩
     emptyQueue [] [] (sampleTransferTx "R1" 10) [] [] (sampleItem 20) "w2"
     (by decide) (by decide) (by decide) rfl (by simp) (by simp) rfl (by decide)
     (by simp) (by simp)).2.2⟩

/-! ### C2 -/

/-- C2 counterexample: with stock 10 and a PENDING STOCK_OUT of 3, one approve
call leaves quantity 7, but a second approve call on the same id decrements
again to 4 — approve is not idempotent, because the handler never checks the
transaction status. -/
theorem C2_counterexample_double_approve :
    ((handleApproveTransaction 7 3 "t1" "T1"
        ⟨[sampleItem 10], [sampleWarehouseA], [sampleCategory], [sampleOutTx 3]⟩
        emptyQueue).1.items.map Item.quantity = [7]) ∧
    ((let r1 := handleApproveTransaction 7 3 "t1" "T1"
        ⟨[sampleItem 10], [sampleWarehouseA], [sampleCategory], [sampleOutTx 3]⟩
        emptyQueue
      (handleApproveTransaction 8 4 "t2" "T1" r1.1 r1.2).1.items.map Item.quantity)
        = [4]) := by
  decide

/-- C2 amended: approve on an absent transaction id is a no-op, and approve
whose source item is missing is a no-op; but a transaction in a terminal state
is NOT protected: the handler never inspects the status, so approving an
already-APPROVED transaction decrements the source item again (hence approving
twice removes 2 times `tx.quantity` instead of once) and enqueues a second
APPROVE action. -/
theorem C2_approve_noop_and_status_blindness :
    (∀ (nowMs rand : Nat) (nowStr txId : String) (s : AppState) (q : SyncQueue),
      (∀ u ∈ s.transactions, u.id ≠ txId) →
      handleApproveTransaction nowMs rand nowStr txId s q = (s, q)) ∧
    (∀ (nowMs rand : Nat) (nowStr : String) (s : AppState) (q : SyncQueue)
      (t1 t2 : List Transaction) (tx : Transaction),
      s.transactions = t1 ++ tx :: t2 →
      (∀ u ∈ t1, u.id ≠ tx.id) → (∀ u ∈ t2, u.id ≠ tx.id) →
      s.items.find? (fun i => i.id == tx.itemId) = none →
      handleApproveTransaction nowMs rand nowStr tx.id s q = (s, q)) ∧
    (∀ (nowMs rand : Nat) (nowStr : String) (s : AppState) (q : SyncQueue)
      (t1 t2 : List Transaction) (tx : Transaction) (i1 i2 : List Item) (src : Item),
      tx.type = TxType.STOCK_OUT →
      tx.status = TxStatus.APPROVED →
      s.transactions = t1 ++ tx :: t2 →
      (∀ u ∈ t1, u.id ≠ tx.id) → (∀ u ∈ t2, u.id ≠ tx.id) →
      s.items = i1 ++ src :: i2 → src.id = tx.itemId →
      (∀ a ∈ i1, a.id ≠ tx.itemId) → (∀ a ∈ i2, a.id ≠ tx.itemId) →
      handleApproveTransaction nowMs rand nowStr tx.id s q =
        ({ s with
            transactions := t1 ++ { tx with status := TxStatus.APPROVED } :: t2,
            items := i1 ++
              { src with quantity := src.quantity - tx.quantity,
                         lastUpdated := nowStr } :: i2 },
         enqueueSyncAction "APPROVE" (SyncPayload.approveRef tx.id) nowStr q)) := by
  refine ⟨?_, ?_, ?_⟩
  · intro nowMs rand nowStr txId s q h
    exact handleApprove_absent nowMs rand nowStr txId s q h
  · intro nowMs rand nowStr s q t1 t2 tx hsplit h1 h2 hfind
    exact handleApprove_noSource nowMs rand nowStr s q t1 t2 tx hsplit h1 h2 hfind
  · intro nowMs rand nowStr s q t1 t2 tx i1 i2 src htype _ hsplit ht1 ht2 hitems
      hsrc hi1 hi2
    have hfind : s.items.find? (fun i => i.id == tx.itemId) = some src := by
      rw [hitems]
      exact find?_keyed_split Item.id tx.itemId i1 i2 src hi1 hsrc
    rw [handleApprove_structured nowMs rand nowStr s q t1 t2 tx src hsplit ht1 ht2 hfind,
      applyApproveItems_not_transfer nowMs rand nowStr s.warehouses s.categories tx
        src s.items (by simp [htype])]
    have hdec : decrementSource nowStr tx s.items =
        i1 ++ { src with quantity := src.quantity - tx.quantity,
                         lastUpdated := nowStr } :: i2 := by
      rw [hitems]
      simp only [decrementSource]
      exact map_keyed_update_split Item.id
        (fun i => { i with quantity := i.quantity - tx.quantity, lastUpdated := nowStr })
        tx.itemId i1 i2 src hi1 hi2 hsrc
    rw [hdec]

/-- Witness for C2 amended at concrete inputs: an absent id leaves the state
untouched, and re-approving an already-APPROVED stock-out decrements again. -/
theorem C2_approve_noop_and_status_blindness_witness :
    (handleApproveTransaction 7 3 "t1" "NO-SUCH-TX"
        ⟨[sampleItem 10], [sampleWarehouseA], [sampleCategory], [sampleOutTx 3]⟩
        emptyQueue =
      (⟨[sampleItem 10], [sampleWarehouseA], [sampleCategory], [sampleOutTx 3]⟩,
       emptyQueue)) ∧
    ({ sampleOutTx 3 with status := TxStatus.APPROVED }.status = TxStatus.APPROVED) ∧
    (handleApproveTransaction 8 4 "t2" "T1"
        ⟨[sampleItem 7], [sampleWarehouseA], [sampleCategory],
         [{ sampleOutTx 3 with status := TxStatus.APPROVED }]⟩
        emptyQueue =
      (⟨[{ sampleItem 7 with quantity := 4, lastUpdated := "t2" }],
        [sampleWarehouseA], [sampleCategory],
        [{ sampleOutTx 3 with status := TxStatus.APPROVED }]⟩,
       enqueueSyncAction "APPROVE" (SyncPayload.approveRef "T1") "t2" emptyQueue)) :=
  ⟨C2_approve_noop_and_status_blindness.1 7 3 "t1" "NO-SUCH-TX"
     ⟨[sampleItem 10], [sampleWarehouseA], [sampleCategory], [sampleOutTx 3]⟩
     emptyQueue (by decide),
   by decide,
   C2_approve_noop_and_status_blindness.2.2 8 4 "t2"
     ⟨[sampleItem 7], [sampleWarehouseA], [sampleCategory],
      [{ sampleOutTx 3 with status := TxStatus.APPROVED }]⟩
     emptyQueue [] [] { sampleOutTx 3 with status := TxStatus.APPROVED } [] []
     (sampleItem 7) (by decide) (by decide) rfl (by simp) (by simp) rfl (by decide)
     (by simp) (by simp)⟩

/-! ### C4 -/

/-- C4: a drain returns exactly the PENDING actions in stored (enqueue) order
and a sync cycle hands precisely that batch to the replay callback; in
particular, enqueueing A, B, C in that order onto a queue with no other
pending entries makes the drain and the replay batch exactly [A, B, C]. -/
theorem C4_fifo_drain_and_replay :
    (∀ (ok : Bool) (q : SyncQueue),
      (syncNow ok q).2.2 = getPendingSyncActions q) ∧
    (∀ (q : SyncQueue) (tyA tyB tyC tsA tsB tsC : String)
      (pA pB pC : SyncPayload) (ok : Bool),
      (∀ e ∈ q.entries, e.status ≠ SyncStatus.PENDING) →
      getPendingSyncActions
          (enqueueSyncAction tyC pC tsC
            (enqueueSyncAction tyB pB tsB (enqueueSyncAction tyA pA tsA q))) =
        [⟨q.nextId, tyA, pA, SyncStatus.PENDING, tsA, 0⟩,
         ⟨q.nextId + 1, tyB, pB, SyncStatus.PENDING, tsB, 0⟩,
         ⟨q.nextId + 2, tyC, pC, SyncStatus.PENDING, tsC, 0⟩] ∧
      (syncNow ok
          (enqueueSyncAction tyC pC tsC
            (enqueueSyncAction tyB pB tsB (enqueueSyncAction tyA pA tsA q)))).2.2 =
        [⟨q.nextId, tyA, pA, SyncStatus.PENDING, tsA, 0⟩,
         ⟨q.nextId + 1, tyB, pB, SyncStatus.PENDING, tsB, 0⟩,
         ⟨q.nextId + 2, tyC, pC, SyncStatus.PENDING, tsC, 0⟩]) := by
  have hdrain : ∀ (q : SyncQueue) (tyA tyB tyC tsA tsB tsC : String)
      (pA pB pC : SyncPayload),
      (∀ e ∈ q.entries, e.status ≠ SyncStatus.PENDING) →
      getPendingSyncActions
          (enqueueSyncAction tyC pC tsC
            (enqueueSyncAction tyB pB tsB (enqueueSyncAction tyA pA tsA q))) =
        [⟨q.nextId, tyA, pA, SyncStatus.PENDING, tsA, 0⟩,
         ⟨q.nextId + 1, tyB, pB, SyncStatus.PENDING, tsB, 0⟩,
         ⟨q.nextId + 2, tyC, pC, SyncStatus.PENDING, tsC, 0⟩] := by
    intro q tyA tyB tyC tsA tsB tsC pA pB pC h
    have hfilter : q.entries.filter (fun a => a.status == SyncStatus.PENDING) = [] :=
      List.filter_eq_nil_iff.mpr (fun a ha => by simp [h a ha])
    simp [getPendingSyncActions, enqueueSyncAction, List.filter_append, hfilter]
  refine ⟨fun ok q => syncNow_batch ok q, ?_⟩
  intro q tyA tyB tyC tsA tsB tsC pA pB pC ok h
  refine ⟨hdrain q tyA tyB tyC tsA tsB tsC pA pB pC h, ?_⟩
  rw [syncNow_batch]
  exact hdrain q tyA tyB tyC tsA tsB tsC pA pB pC h

/-- Witness for C4 at concrete inputs: a queue holding one SYNCED entry, then
three enqueues, drained in order. -/
theorem C4_fifo_drain_and_replay_witness :
    (∀ e ∈ ({ entries := [sampleAction 1 SyncStatus.SYNCED 0], nextId := 2 } :
        SyncQueue).entries, e.status ≠ SyncStatus.PENDING) ∧
    getPendingSyncActions
        (enqueueSyncAction "TRANSFER" (SyncPayload.approveRef "T3") "t3"
          (enqueueSyncAction "STOCK_OUT" (SyncPayload.approveRef "T2") "t2"
            (enqueueSyncAction "STOCK_IN" (SyncPayload.approveRef "T1") "t1"
              { entries := [sampleAction 1 SyncStatus.SYNCED 0], nextId := 2 }))) =
      [⟨2, "STOCK_IN", SyncPayload.approveRef "T1", SyncStatus.PENDING, "t1", 0⟩,
       ⟨3, "STOCK_OUT", SyncPayload.approveRef "T2", SyncStatus.PENDING, "t2", 0⟩,
       ⟨4, "TRANSFER", SyncPayload.approveRef "T3", SyncStatus.PENDING, "t3", 0⟩] ∧
    (syncNow true
        (enqueueSyncAction "TRANSFER" (SyncPayload.approveRef "T3") "t3"
          (enqueueSyncAction "STOCK_OUT" (SyncPayload.approveRef "T2") "t2"
            (enqueueSyncAction "STOCK_IN" (SyncPayload.approveRef "T1") "t1"
              { entries := [sampleAction 1 SyncStatus.SYNCED 0], nextId := 2 })))).2.2 =
      [⟨2, "STOCK_IN", SyncPayload.approveRef "T1", SyncStatus.PENDING, "t1", 0⟩,
       ⟨3, "STOCK_OUT", SyncPayload.approveRef "T2", SyncStatus.PENDING, "t2", 0⟩,
       ⟨4, "TRANSFER", SyncPayload.approveRef "T3", SyncStatus.PENDING, "t3", 0⟩] :=
  ⟨by decide,
   (C4_fifo_drain_and_replay.2 { entries := [sampleAction 1 SyncStatus.SYNCED 0], nextId := 2 }
     "STOCK_IN" "STOCK_OUT" "TRANSFER" "t1" "t2" "t3"
     (SyncPayload.approveRef "T1") (SyncPayload.approveRef "T2")
     (SyncPayload.approveRef "T3") true (by decide)).1,
   (C4_fifo_drain_and_replay.2 { entries := [sampleAction 1 SyncStatus.SYNCED 0], nextId := 2 }
     "STOCK_IN" "STOCK_OUT" "TRANSFER" "t1" "t2" "t3"
     (SyncPayload.approveRef "T1") (SyncPayload.approveRef "T2")
     (SyncPayload.approveRef "T3") true (by decide)).2⟩

/-! ### C5 -/

/-- C5 counterexample: one PENDING action, failing callback — the action is
marked FAILED with retries 1, but the next drain is empty: the batch does NOT
reappear in the next drain, because the drain filters for status PENDING and
nothing ever resets a FAILED action. -/
theorem C5_counterexample_failed_not_redrained :
    ((syncNow false
        { entries := [sampleAction 1 SyncStatus.PENDING 0], nextId := 2 }).2.2 ≠ []) ∧
    ((syncNow false
        { entries := [sampleAction 1 SyncStatus.PENDING 0], nextId := 2 }).1.entries.map
        SyncAction.retries = [1]) ∧
    (getPendingSyncActions
        (syncNow false
          { entries := [sampleAction 1 SyncStatus.PENDING 0], nextId := 2 }).1 = []) := by
  decide

/-- C5 amended: for a non-empty pending batch (and well-formed distinct queue
ids), a successful callback marks every pending action SYNCED and the pending
count drops to 0; a failing callback marks every pending action FAILED with
retries incremented by one — but the failed actions do not reappear in the
next drain (which is empty), since draining selects only PENDING actions and
no operation re-enqueues FAILED ones. -/
theorem C5_reconcile_batch (q : SyncQueue)
    (hnd : (q.entries.map SyncAction.id).Nodup)
    (hne : getPendingSyncActions q ≠ []) :
    ((syncNow true q).1.entries = q.entries.map (fun e =>
        if e.status == SyncStatus.PENDING then
          { e with status := SyncStatus.SYNCED }
        else e) ∧
     (syncNow true q).2.1 = 0 ∧
     getPendingSyncActions (syncNow true q).1 = []) ∧
    ((syncNow false q).1.entries = q.entries.map (fun e =>
        if e.status == SyncStatus.PENDING then
          { e with status := SyncStatus.FAILED, retries := e.retries + 1 }
        else e) ∧
     getPendingSyncActions (syncNow false q).1 = []) := by
  have hbnd := pending_ids_nodup q hnd
  have hs : (syncNow true q).1.entries = q.entries.map (fun e =>
      if e.status == SyncStatus.PENDING then
        { e with status := SyncStatus.SYNCED }
      else e) := by
    rw [syncNow_success q hne]
    rw [show (((getPendingSyncActions q).foldl
        (fun acc a => markSyncActionSynced a.id acc) q, 0,
        getPendingSyncActions q) : SyncQueue × Nat × List SyncAction).1 =
      (getPendingSyncActions q).foldl (fun acc a => markSyncActionSynced a.id acc) q
      from rfl]
    rw [foldl_markSynced (getPendingSyncActions q) q hnd]
    exact map_congr_mem _ _ _ (fun e he => by rw [pending_any_iff q hnd e he])
  have hf : (syncNow false q).1.entries = q.entries.map (fun e =>
      if e.status == SyncStatus.PENDING then
        { e with status := SyncStatus.FAILED, retries := e.retries + 1 }
      else e) := by
    rw [syncNow_failure q hne]
    rw [show (((getPendingSyncActions q).foldl
        (fun acc a => markSyncActionFailed a.id acc) q,
        (getPendingSyncActions q).length,
        getPendingSyncActions q) : SyncQueue × Nat × List SyncAction).1 =
      (getPendingSyncActions q).foldl (fun acc a => markSyncActionFailed a.id acc) q
      from rfl]
    rw [foldl_markFailed (getPendingSyncActions q) q hnd hbnd]
    exact map_congr_mem _ _ _ (fun e he => by rw [pending_any_iff q hnd e he])
  refine ⟨⟨hs, ?_, ?_⟩, hf, ?_⟩
  · rw [syncNow_success q hne]
  · show (syncNow true q).1.entries.filter (fun a => a.status == SyncStatus.PENDING) = []
    rw [hs, List.filter_eq_nil_iff]
    intro x hx
    obtain ⟨e, _, rfl⟩ := List.mem_map.mp hx
    by_cases hp : e.status = SyncStatus.PENDING <;> simp [hp]
  · show (syncNow false q).1.entries.filter (fun a => a.status == SyncStatus.PENDING) = []
    rw [hf, List.filter_eq_nil_iff]
    intro x hx
    obtain ⟨e, _, rfl⟩ := List.mem_map.mp hx
    by_cases hp : e.status = SyncStatus.PENDING <;> simp [hp]

/-- Witness for C5 at a concrete two-entry queue with one pending action. -/
theorem C5_reconcile_batch_witness :
    ((({ entries := [sampleAction 1 SyncStatus.PENDING 0,
                     sampleAction 2 SyncStatus.SYNCED 0], nextId := 3 } :
        SyncQueue).entries.map SyncAction.id).Nodup) ∧
    (getPendingSyncActions
      { entries := [sampleAction 1 SyncStatus.PENDING 0,
                    sampleAction 2 SyncStatus.SYNCED 0], nextId := 3 } ≠ []) ∧
    (((syncNow true { entries := [sampleAction 1 SyncStatus.PENDING 0,
                                  sampleAction 2 SyncStatus.SYNCED 0],
                      nextId := 3 }).1.entries =
        ({ entries := [sampleAction 1 SyncStatus.PENDING 0,
                       sampleAction 2 SyncStatus.SYNCED 0], nextId := 3 } :
          SyncQueue).entries.map (fun e =>
          if e.status == SyncStatus.PENDING then
            { e with status := SyncStatus.SYNCED }
          else e) ∧
      (syncNow true { entries := [sampleAction 1 SyncStatus.PENDING 0,
                                  sampleAction 2 SyncStatus.SYNCED 0],
                      nextId := 3 }).2.1 = 0 ∧
      getPendingSyncActions
        (syncNow true { entries := [sampleAction 1 SyncStatus.PENDING 0,
                                    sampleAction 2 SyncStatus.SYNCED 0],
                        nextId := 3 }).1 = []) ∧
     ((syncNow false { entries := [sampleAction 1 SyncStatus.PENDING 0,
                                   sampleAction 2 SyncStatus.SYNCED 0],
                       nextId := 3 }).1.entries =
        ({ entries := [sampleAction 1 SyncStatus.PENDING 0,
                       sampleAction 2 SyncStatus.SYNCED 0], nextId := 3 } :
          SyncQueue).entries.map (fun e =>
          if e.status == SyncStatus.PENDING then
            { e with status := SyncStatus.FAILED, retries := e.retries + 1 }
          else e) ∧
      getPendingSyncActions
        (syncNow false { entries := [sampleAction 1 SyncStatus.PENDING 0,
                                     sampleAction 2 SyncStatus.SYNCED 0],
                         nextId := 3 }).1 = [])) :=
  ⟨by decide, by decide,
   C5_reconcile_batch
     { entries := [sampleAction 1 SyncStatus.PENDING 0,
                   sampleAction 2 SyncStatus.SYNCED 0], nextId := 3 }
     (by decide) (by decide)⟩

/-! ### C9 -/

/-- C9 counterexample: an action already in the terminal status FAILED is not
left unchanged by markFailed — its retries counter climbs from 0 to 1, so the
call is not a no-op on the record. -/
theorem C9_counterexample_failed_retries_climb :
    (markSyncActionFailed 1
        { entries := [sampleAction 1 SyncStatus.FAILED 0], nextId := 2 } ≠
      { entries := [sampleAction 1 SyncStatus.FAILED 0], nextId := 2 }) ∧
    ((markSyncActionFailed 1
        { entries := [sampleAction 1 SyncStatus.FAILED 0], nextId := 2 }).entries.map
        SyncAction.retries = [1]) := by
  decide

/-- C9 amended: both markers are no-ops on an absent id, and markSynced on an
already-SYNCED action leaves the queue unchanged; but marking an
already-terminal action is not in general a no-op: markFailed on an
already-FAILED action rewrites the record with retries incremented by one,
and either marker overwrites the other terminal status — markSynced on a
FAILED action stores it back with status SYNCED, and markFailed on a SYNCED
action stores it back with status FAILED and retries incremented. -/
theorem C9_mark_terminal_amended :
    (∀ (id : Nat) (q : SyncQueue), (∀ e ∈ q.entries, e.id ≠ id) →
      markSyncActionSynced id q = q ∧ markSyncActionFailed id q = q) ∧
    (∀ (q : SyncQueue) (a : SyncAction), (q.entries.map SyncAction.id).Nodup →
      a ∈ q.entries → a.status = SyncStatus.SYNCED →
      markSyncActionSynced a.id q = q) ∧
    (∀ (q : SyncQueue) (a : SyncAction), (q.entries.map SyncAction.id).Nodup →
      a ∈ q.entries → a.status = SyncStatus.FAILED →
      (markSyncActionFailed a.id q).entries = q.entries.map (fun e =>
        if e.id == a.id then { e with retries := e.retries + 1 } else e)) ∧
    (∀ (q : SyncQueue) (a : SyncAction), (q.entries.map SyncAction.id).Nodup →
      a ∈ q.entries → a.status = SyncStatus.FAILED →
      (markSyncActionSynced a.id q).entries.find? (fun e => e.id == a.id) =
        some { a with status := SyncStatus.SYNCED }) ∧
    (∀ (q : SyncQueue) (a : SyncAction), (q.entries.map SyncAction.id).Nodup →
      a ∈ q.entries → a.status = SyncStatus.SYNCED →
      (markSyncActionFailed a.id q).entries.find? (fun e => e.id == a.id) =
        some { a with status := SyncStatus.FAILED, retries := a.retries + 1 }) := by
  refine ⟨?_, ?_, ?_, ?_, ?_⟩
  · intro id q h
    exact ⟨markSynced_of_absent id q h, markFailed_of_absent id q h⟩
  · intro q a hnd ha hst
    apply syncQueue_eq_of
    · rw [markSynced_entries a.id q hnd]
      apply map_id_of_eq
      intro e he
      by_cases hc : e.id = a.id
      · have heq : e = a := List.inj_on_of_nodup_map hnd he ha hc
        subst heq
        rw [← hst]
        simp
      · simp [hc]
    · exact markSynced_nextId a.id q
  · intro q a hnd ha hst
    rw [markFailed_entries a.id q hnd]
    apply map_congr_mem
    intro e he
    by_cases hc : e.id = a.id
    · have heq : e = a := List.inj_on_of_nodup_map hnd he ha hc
      subst heq
      rw [← hst]
    · simp [hc]
  · intro q a hnd ha _
    rw [markSynced_entries a.id q hnd]
    have hp : ∀ e : SyncAction, (fun e : SyncAction => e.id == a.id)
        (if e.id == a.id then
          ({ e with status := SyncStatus.SYNCED } : SyncAction)
        else e) = (e.id == a.id) := by
      intro e
      by_cases h : e.id = a.id <;> simp [h]
    rw [find?_map_invariant _ _ hp,
      find?_key_of_mem_nodup SyncAction.id q.entries hnd a ha]
    simp
  · intro q a hnd ha _
    rw [markFailed_entries a.id q hnd]
    have hp : ∀ e : SyncAction, (fun e : SyncAction => e.id == a.id)
        (if e.id == a.id then
          ({ e with status := SyncStatus.FAILED, retries := e.retries + 1 } : SyncAction)
        else e) = (e.id == a.id) := by
      intro e
      by_cases h : e.id = a.id <;> simp [h]
    rw [find?_map_invariant _ _ hp,
      find?_key_of_mem_nodup SyncAction.id q.entries hnd a ha]
    simp

/-- Witness for C9 at concrete queues: absent id 9 is a no-op, marking a
SYNCED action SYNCED again is a no-op, marking a FAILED action FAILED again
increments its retries, markSynced flips a FAILED action to SYNCED, and
markFailed flips a SYNCED action to FAILED with retries incremented. -/
theorem C9_mark_terminal_amended_witness :
    (∀ e ∈ ({ entries := [sampleAction 1 SyncStatus.SYNCED 0], nextId := 2 } :
        SyncQueue).entries, e.id ≠ 9) ∧
    (markSyncActionSynced 9
        { entries := [sampleAction 1 SyncStatus.SYNCED 0], nextId := 2 } =
      { entries := [sampleAction 1 SyncStatus.SYNCED 0], nextId := 2 } ∧
     markSyncActionFailed 9
        { entries := [sampleAction 1 SyncStatus.SYNCED 0], nextId := 2 } =
      { entries := [sampleAction 1 SyncStatus.SYNCED 0], nextId := 2 }) ∧
    (markSyncActionSynced (sampleAction 1 SyncStatus.SYNCED 0).id
        { entries := [sampleAction 1 SyncStatus.SYNCED 0], nextId := 2 } =
      { entries := [sampleAction 1 SyncStatus.SYNCED 0], nextId := 2 }) ∧
    ((markSyncActionFailed (sampleAction 1 SyncStatus.FAILED 0).id
        { entries := [sampleAction 1 SyncStatus.FAILED 0], nextId := 2 }).entries =
      ({ entries := [sampleAction 1 SyncStatus.FAILED 0], nextId := 2 } :
        SyncQueue).entries.map (fun e =>
        if e.id == (sampleAction 1 SyncStatus.FAILED 0).id then
          { e with retries := e.retries + 1 }
        else e)) ∧
    ((markSyncActionSynced (sampleAction 1 SyncStatus.FAILED 2).id
        { entries := [sampleAction 1 SyncStatus.FAILED 2], nextId := 2 }).entries.find?
        (fun e => e.id == (sampleAction 1 SyncStatus.FAILED 2).id) =
      some { sampleAction 1 SyncStatus.FAILED 2 with status := SyncStatus.SYNCED }) ∧
    ((markSyncActionFailed (sampleAction 1 SyncStatus.SYNCED 2).id
        { entries := [sampleAction 1 SyncStatus.SYNCED 2], nextId := 2 }).entries.find?
        (fun e => e.id == (sampleAction 1 SyncStatus.SYNCED 2).id) =
      some { sampleAction 1 SyncStatus.SYNCED 2 with
             status := SyncStatus.FAILED, retries := 3 }) :=
  ⟨by decide,
   C9_mark_terminal_amended.1 9
     { entries := [sampleAction 1 SyncStatus.SYNCED 0], nextId := 2 } (by decide),
   C9_mark_terminal_amended.2.1
     { entries := [sampleAction 1 SyncStatus.SYNCED 0], nextId := 2 }
     (sampleAction 1 SyncStatus.SYNCED 0) (by decide) (by decide) (by decide),
   C9_mark_terminal_amended.2.2.1
     { entries := [sampleAction 1 SyncStatus.FAILED 0], nextId := 2 }
     (sampleAction 1 SyncStatus.FAILED 0) (by decide) (by decide) (by decide),
   C9_mark_terminal_amended.2.2.2.1
     { entries := [sampleAction 1 SyncStatus.FAILED 2], nextId := 2 }
     (sampleAction 1 SyncStatus.FAILED 2) (by decide) (by decide) (by decide),
   C9_mark_terminal_amended.2.2.2.2
     { entries := [sampleAction 1 SyncStatus.SYNCED 2], nextId := 2 }
     (sampleAction 1 SyncStatus.SYNCED 2) (by decide) (by decide) (by decide)⟩

/-! ### C6 -/

/-- C6: approving a TRANSFER whose target warehouse already holds a matching
item (same warehouse, category and name) merges — the item count is unchanged
and the quantity of the matching item grows by `tx.quantity`; with no match a new
item is appended, cloned from the source (record update keeps all cost fields,
status and category) with the freshly generated id, the target warehouse id,
quantity `tx.quantity` and barcode `prefix-code-suffix` from the target
warehouse and the category; and concretely, transferring 10 then 5 units to
the same target yields one target item of quantity 15, not two items. -/
theorem C6_transfer_merge_or_create :
    (∀ (nowMs rand : Nat) (nowStr : String) (s : AppState) (q : SyncQueue)
      (t1 t2 : List Transaction) (tx : Transaction) (src : Item)
      (target : String) (y : Item),
      s.transactions = t1 ++ tx :: t2 →
      (∀ u ∈ t1, u.id ≠ tx.id) → (∀ u ∈ t2, u.id ≠ tx.id) →
      tx.type = TxType.TRANSFER → tx.targetWarehouseId = some target →
      s.items.find? (fun i => i.id == tx.itemId) = some src →
      (decrementSource nowStr tx s.items).find? (matchesTarget target src) = some y →
      ((handleApproveTransaction nowMs rand nowStr tx.id s q).1.items.length =
        s.items.length ∧
       (handleApproveTransaction nowMs rand nowStr tx.id s q).1.items.find?
          (matchesTarget target src) =
        some { y with quantity := y.quantity + tx.quantity, lastUpdated := nowStr })) ∧
    (∀ (nowMs rand : Nat) (nowStr : String) (s : AppState) (q : SyncQueue)
      (t1 t2 : List Transaction) (tx : Transaction) (src : Item)
      (target : String) (w : Warehouse) (c : Category),
      s.transactions = t1 ++ tx :: t2 →
      (∀ u ∈ t1, u.id ≠ tx.id) → (∀ u ∈ t2, u.id ≠ tx.id) →
      tx.type = TxType.TRANSFER → tx.targetWarehouseId = some target →
      s.items.find? (fun i => i.id == tx.itemId) = some src →
      (decrementSource nowStr tx s.items).find? (matchesTarget target src) = none →
      s.warehouses.find? (fun u => u.id == target) = some w →
      s.categories.find? (fun u => u.id == src.categoryId) = some c →
      ((handleApproveTransaction nowMs rand nowStr tx.id s q).1.items =
        decrementSource nowStr tx s.items ++
          [{ src with
              id := mkNewItemId nowMs rand,
              warehouseId := target,
              quantity := tx.quantity,
              barcode := Warehouse.pfx w ++ "-" ++ c.code ++ "-" ++ toString nowMs,
              lastUpdated := nowStr }] ∧
       (handleApproveTransaction nowMs rand nowStr tx.id s q).1.items.length =
        s.items.length + 1)) ∧
    (((handleApproveTransaction 100 9 "u1" "R1"
        ⟨[sampleItem 20], [sampleWarehouseA, sampleWarehouseB], [sampleCategory],
         [sampleTransferTx "R1" 10, sampleTransferTx "R2" 5]⟩
        emptyQueue).1.items.map (fun i => (i.warehouseId, i.quantity, i.barcode)) =
      [("w1", 10, "AL-STL-1"), ("w2", 10, "BE-STL-100")]) ∧
     ((let r1 := handleApproveTransaction 100 9 "u1" "R1"
        ⟨[sampleItem 20], [sampleWarehouseA, sampleWarehouseB], [sampleCategory],
         [sampleTransferTx "R1" 10, sampleTransferTx "R2" 5]⟩
        emptyQueue
       (handleApproveTransaction 200 8 "u2" "R2" r1.1 r1.2).1.items.map
         (fun i => (i.warehouseId, i.quantity))) = [("w1", 5), ("w2", 15)])) := by
  refine ⟨?_, ?_, by decide⟩
  · intro nowMs rand nowStr s q t1 t2 tx src target y hsplit ht1 ht2 htype htgt
      hfind hfound
    rw [handleApprove_structured nowMs rand nowStr s q t1 t2 tx src hsplit ht1 ht2 hfind]
    show ((applyApproveItems nowMs rand nowStr s.warehouses s.categories tx src
        s.items).length = s.items.length ∧
      (applyApproveItems nowMs rand nowStr s.warehouses s.categories tx src
        s.items).find? (matchesTarget target src) =
        some { y with quantity := y.quantity + tx.quantity, lastUpdated := nowStr })
    rw [applyApproveItems_transfer_merge nowMs rand nowStr s.warehouses s.categories
      tx src s.items target y htype htgt hfound]
    constructor
    · simp [decrementSource]
    · have hpinv : ∀ i : Item, matchesTarget target src
          (if i.id == y.id then
            ({ i with quantity := i.quantity + tx.quantity,
                      lastUpdated := nowStr } : Item)
          else i) = matchesTarget target src i := by
        intro i
        by_cases h : (i.id == y.id) = true <;> simp [matchesTarget, h]
      rw [find?_map_invariant (matchesTarget target src) _ hpinv, hfound]
      simp
  · intro nowMs rand nowStr s q t1 t2 tx src target w c hsplit ht1 ht2 htype htgt
      hfind hnone hw hc
    rw [handleApprove_structured nowMs rand nowStr s q t1 t2 tx src hsplit ht1 ht2 hfind]
    show (applyApproveItems nowMs rand nowStr s.warehouses s.categories tx src
        s.items =
        decrementSource nowStr tx s.items ++
          [{ src with
              id := mkNewItemId nowMs rand,
              warehouseId := target,
              quantity := tx.quantity,
              barcode := Warehouse.pfx w ++ "-" ++ c.code ++ "-" ++ toString nowMs,
              lastUpdated := nowStr }] ∧
      (applyApproveItems nowMs rand nowStr s.warehouses s.categories tx src
        s.items).length = s.items.length + 1)
    have hcreate := applyApproveItems_transfer_create nowMs rand nowStr s.warehouses
      s.categories tx src s.items target w c htype htgt hnone hw hc
    refine ⟨hcreate, ?_⟩
    rw [hcreate]
    simp [decrementSource]

/-- Witness for C6 at concrete inputs: the merge arm into an existing item of
the target warehouse, and the create arm cloning the source. -/
theorem C6_transfer_merge_or_create_witness :
    ((decrementSource "u1" (sampleTransferTx "R1" 10)
        [sampleItem 20, sampleItemB]).find?
      (matchesTarget "w2" (sampleItem 20)) =
      some sampleItemB) ∧
    ((handleApproveTransaction 100 9 "u1" "R1"
        ⟨[sampleItem 20, sampleItemB],
         [sampleWarehouseA, sampleWarehouseB], [sampleCategory],
         [sampleTransferTx "R1" 10]⟩
        emptyQueue).1.items.length = 2 ∧
     (handleApproveTransaction 100 9 "u1" "R1"
        ⟨[sampleItem 20, sampleItemB],
         [sampleWarehouseA, sampleWarehouseB], [sampleCategory],
         [sampleTransferTx "R1" 10]⟩
        emptyQueue).1.items.find? (matchesTarget "w2" (sampleItem 20)) =
      some { sampleItemB with quantity := 14, lastUpdated := "u1" }) ∧
    ((handleApproveTransaction 100 9 "u1" "R1"
        ⟨[sampleItem 20], [sampleWarehouseA, sampleWarehouseB], [sampleCategory],
         [sampleTransferTx "R1" 10]⟩
        emptyQueue).1.items =
      decrementSource "u1" (sampleTransferTx "R1" 10) [sampleItem 20] ++
        [{ sampleItem 20 with
            id := mkNewItemId 100 9,
            warehouseId := "w2",
            quantity := 10,
            barcode := Warehouse.pfx sampleWarehouseB ++ "-" ++
              sampleCategory.code ++ "-" ++ toString 100,
            lastUpdated := "u1" }]) :=
  ⟨by decide,
   (C6_transfer_merge_or_create.1 100 9 "u1"
     ⟨[sampleItem 20, sampleItemB],
      [sampleWarehouseA, sampleWarehouseB], [sampleCategory],
      [sampleTransferTx "R1" 10]⟩
     emptyQueue [] [] (sampleTransferTx "R1" 10) (sampleItem 20) "w2"
     sampleItemB
     rfl (by simp) (by simp) (by decide) (by decide) (by decide) (by decide)),
   (C6_transfer_merge_or_create.2.1 100 9 "u1"
     ⟨[sampleItem 20], [sampleWarehouseA, sampleWarehouseB], [sampleCategory],
      [sampleTransferTx "R1" 10]⟩
     emptyQueue [] [] (sampleTransferTx "R1" 10) (sampleItem 20) "w2"
     sampleWarehouseB sampleCategory
     rfl (by simp) (by simp) (by decide) (by decide) (by decide) (by decide)
     (by decide) (by decide)).1⟩

/-! ### C10 -/

/-- C10: approving a TRANSFER whose source item exists conserves total stock
over the merge key: the sum of quantities over all items carrying the name
and category id of the source item is unchanged by the approval — the source loses
`tx.quantity` and the target item (merged or newly created, which carries the
name and category of the source) gains exactly `tx.quantity`. -/
theorem C10_transfer_conserves_total (nowMs rand : Nat) (nowStr : String)
    (s : AppState) (q : SyncQueue) (t1 t2 : List Transaction) (tx : Transaction)
    (src : Item) (target : String)
    (hsplit : s.transactions = t1 ++ tx :: t2)
    (ht1 : ∀ u ∈ t1, u.id ≠ tx.id) (ht2 : ∀ u ∈ t2, u.id ≠ tx.id)
    (htype : tx.type = TxType.TRANSFER) (htgt : tx.targetWarehouseId = some target)
    (hfind : s.items.find? (fun i => i.id == tx.itemId) = some src)
    (hnd : (s.items.map Item.id).Nodup) :
    sumQty src.name src.categoryId
      (handleApproveTransaction nowMs rand nowStr tx.id s q).1.items =
    sumQty src.name src.categoryId s.items := by
  rw [handleApprove_structured nowMs rand nowStr s q t1 t2 tx src hsplit ht1 ht2 hfind]
  show sumQty src.name src.categoryId
      (applyApproveItems nowMs rand nowStr s.warehouses s.categories tx src s.items) =
    sumQty src.name src.categoryId s.items
  have hsrcmem : src ∈ s.items := List.mem_of_find?_eq_some hfind
  have hsrcid : src.id = tx.itemId := by
    have := List.find?_some hfind; simpa using this
  have hdecsum : sumQty src.name src.categoryId (decrementSource nowStr tx s.items) =
      sumQty src.name src.categoryId s.items - tx.quantity := by
    unfold decrementSource
    rw [sumQty_map_update src.name src.categoryId tx.itemId
      (fun i => { i with quantity := i.quantity - tx.quantity, lastUpdated := nowStr })
      (fun _ => rfl) (fun _ => rfl) s.items hnd src hsrcmem hsrcid]
    simp
    ring
  have hdecnd : ((decrementSource nowStr tx s.items).map Item.id).Nodup := by
    have hids : (decrementSource nowStr tx s.items).map Item.id =
        s.items.map Item.id := by
      unfold decrementSource
      rw [List.map_map]
      exact map_congr_mem _ _ _ (fun i _ => by
        by_cases h : i.id = tx.itemId <;> simp [h])
    rw [hids]; exact hnd
  cases hfT : (decrementSource nowStr tx s.items).find? (matchesTarget target src) with
  | some y =>
      rw [applyApproveItems_transfer_merge nowMs rand nowStr s.warehouses
        s.categories tx src s.items target y htype htgt hfT]
      have hymem : y ∈ decrementSource nowStr tx s.items :=
        List.mem_of_find?_eq_some hfT
      have hy := List.find?_some hfT
      simp only [matchesTarget, Bool.and_eq_true, beq_iff_eq] at hy
      obtain ⟨⟨_, hycat⟩, hyname⟩ := hy
      rw [sumQty_map_update src.name src.categoryId y.id
        (fun i => { i with quantity := i.quantity + tx.quantity, lastUpdated := nowStr })
        (fun _ => rfl) (fun _ => rfl) _ hdecnd y hymem rfl, hdecsum]
      simp [hyname, hycat]
  | none =>
      obtain ⟨bc, hcreate⟩ := applyApproveItems_transfer_create_exists nowMs rand
        nowStr s.warehouses s.categories tx src s.items target htype htgt hfT
      rw [hcreate, sumQty_append, hdecsum]
      simp [sumQty]

/-- Witness for C10 at concrete inputs: a 10-unit transfer out of a stock of
20 keeps the total for the (name, category) key at 20. -/
theorem C10_transfer_conserves_total_witness :
    ((sampleTransferTx "R1" 10).type = TxType.TRANSFER) ∧
    (sumQty (sampleItem 20).name (sampleItem 20).categoryId
      (handleApproveTransaction 100 9 "u1" "R1"
        ⟨[sampleItem 20], [sampleWarehouseA, sampleWarehouseB], [sampleCategory],
         [sampleTransferTx "R1" 10]⟩
        emptyQueue).1.items =
     sumQty (sampleItem 20).name (sampleItem 20).categoryId [sampleItem 20]) :=
  ⟨by decide,
   C10_transfer_conserves_total 100 9 "u1"
     ⟨[sampleItem 20], [sampleWarehouseA, sampleWarehouseB], [sampleCategory],
      [sampleTransferTx "R1" 10]⟩
     emptyQueue [] [] (sampleTransferTx "R1" 10) (sampleItem 20) "w2"
     rfl (by simp) (by simp) (by decide) (by decide) (by decide) (by decide)⟩

end InventorySys
